import Mathlib

/-!
Verification development for the StyleFlow video-model builder
(slowfast/models/video_model_builder).

The file shallowly embeds the builder module: the configuration checks run by
each registered model class at construction time, the module-registration
performed by `dual_define`, and the `forward` computations of every registered
class.  Tensors are modelled as a concrete shape (a list of dimension extents)
together with an abstract numeric payload `τ`; the layer primitives supplied by
the tensor framework (convolution kernels, normalisation, interpolation, mean,
sigmoid, concatenation arithmetic) compute their output shapes concretely where
the builder declares the geometry, and carry abstract value functions
otherwise, since the framework is an external black box to this repository.
-/

/-- Extent of axis `i` of a shape, with 0 for out-of-range axes. -/
def dimAt (d : List Nat) (i : Nat) : Nat := d.getD i 0

/-- Number of elements of a shape (the product of its extents). -/
def numel (d : List Nat) : Nat := d.foldl (fun a b => a * b) 1

/-- The shape-and-value part of a tensor: a concrete shape `dims`
(batch, channel, time, height, width for 5-d feature tensors) and an
abstract numeric payload `val`. -/
structure VT (τ : Type) where
  dims : List Nat
  val : τ
deriving DecidableEq

/-- A tensor as the autograd framework hands it around: the value part plus
the autograd-tracking flag; `detach` clears the flag and keeps the values. -/
structure Tensor (τ : Type) where
  vt : VT τ
  grad : Bool
deriving DecidableEq

instance [Inhabited τ] : Inhabited (VT τ) := ⟨⟨[], default⟩⟩

instance [Inhabited τ] : Inhabited (Tensor τ) := ⟨⟨default, false⟩⟩

/-- torch.Tensor.detach: same shape and values, removed from the autograd
graph. -/
def Tensor.detach (t : Tensor τ) : Tensor τ := { t with grad := false }

/-- Modelled from the spec: the value arithmetic of the external
layer-primitive library (an out-of-repo black-box collaborator).  Output
shapes are computed concretely by the wrappers below; the numeric transforms
stay abstract. -/
structure TorchOps (τ : Type) where
  catVal : VT τ → VT τ → τ
  interpVal : Nat → Nat → Nat → VT τ → τ
  mean34Val : VT τ → τ
  mulScalarVal : Nat → VT τ → τ
  sigmoidVal : VT τ → τ

/-- Output extent of a convolution along one axis:
floor((n + 2 * padding - kernel) / stride) + 1. -/
def convExtent (n k s p : Nat) : Nat := (n + 2 * p - k) / s + 1

/-- nn.Conv3d as declared by the builder: concrete geometry (channel counts,
kernel, stride, padding), abstract learned-kernel value function. -/
structure Conv3dM (τ : Type) where
  inC : Nat
  outC : Nat
  kT : Nat
  kH : Nat
  kW : Nat
  sT : Nat
  sH : Nat
  sW : Nat
  pT : Nat
  pH : Nat
  pW : Nat
  bias : Bool
  valF : VT τ → τ

/-- Output shape of a Conv3d on a (batch, channel, time, height, width)
tensor. -/
def Conv3dM.dimsOut (c : Conv3dM τ) (d : List Nat) : List Nat :=
  [dimAt d 0, c.outC, convExtent (dimAt d 2) c.kT c.sT c.pT,
   convExtent (dimAt d 3) c.kH c.sH c.pH, convExtent (dimAt d 4) c.kW c.sW c.pW]

def Conv3dM.apply (c : Conv3dM τ) (x : VT τ) : VT τ := ⟨c.dimsOut x.dims, c.valF x⟩

/-- A normalisation module (e.g. nn.BatchNorm3d): shape preserving, abstract
values. -/
structure NormM (τ : Type) where
  features : Nat
  valF : VT τ → τ

def NormM.apply (n : NormM τ) (x : VT τ) : VT τ := ⟨x.dims, n.valF x⟩

/-- An activation module (e.g. nn.ReLU): shape preserving, abstract values. -/
structure ActM (τ : Type) where
  valF : VT τ → τ

def ActM.apply (a : ActM τ) (x : VT τ) : VT τ := ⟨x.dims, a.valF x⟩

/-- nn.Linear: maps the last axis from `inF` to `outF` features. -/
structure LinearM (τ : Type) where
  inF : Nat
  outF : Nat
  valF : VT τ → τ

def LinearM.apply (l : LinearM τ) (x : VT τ) : VT τ :=
  ⟨x.dims.set (x.dims.length - 1) l.outF, l.valF x⟩

/-- torch.cat along axis 1 (the channel axis) of two tensors; the remaining
extents are those of the first argument (torch requires them to match). -/
def catVT (ops : TorchOps τ) (a b : VT τ) : VT τ :=
  ⟨a.dims.set 1 (dimAt a.dims 1 + dimAt b.dims 1), ops.catVal a b⟩

def catT (ops : TorchOps τ) (a b : Tensor τ) : Tensor τ :=
  ⟨catVT ops a.vt b.vt, a.grad || b.grad⟩

/-- torch.cat of a python list of tensors along axis 1 (left fold of pairwise
concatenation; torch raises on an empty list, modelled by `default`). -/
def catTList [Inhabited τ] (ops : TorchOps τ) : List (Tensor τ) → Tensor τ
  | [] => default
  | x :: xs => xs.foldl (fun a b => catT ops a b) x

/-- Apply a value-level layer to a tracked tensor; autograd tracking survives
layer application and the layer never reads the tracking flag. -/
def liftL (f : VT τ → VT τ) (x : Tensor τ) : Tensor τ := ⟨f x.vt, x.grad⟩

/-- Modelled from the spec: a stem or residual stage
(stem_helper.VideoModelStem / resnet_helper.ResStage, both outside this
repository's sources) operates on the pathway list positionally, applying one
per-pathway transform to each entry. -/
def stageApp (s : Nat → VT τ → VT τ) (xs : List (Tensor τ)) : List (Tensor τ) :=
  xs.mapIdx (fun i x => liftL (s i) x)

/-- The per-pathway pooling loop of the forward methods:
for pathway in range(n): x[pathway] = pool_pathway(x[pathway]). -/
def poolLoop [Inhabited τ] (pools : Nat → VT τ → VT τ) (n : Nat)
    (xs : List (Tensor τ)) : List (Tensor τ) :=
  (List.range n).foldl (fun acc i => acc.set i (liftL (pools i) (acc.getD i default))) xs

/-- x.mean([3, 4]): averages away the two spatial axes. -/
def meanT34 (ops : TorchOps τ) (x : Tensor τ) : Tensor τ :=
  ⟨⟨x.vt.dims.take 3, ops.mean34Val x.vt⟩, x.grad⟩

/-- x.view(-1, 1): reshape, values untouched. -/
def viewN1 (x : Tensor τ) : Tensor τ := ⟨⟨[numel x.vt.dims, 1], x.vt.val⟩, x.grad⟩

/-- x * c for a scalar c. -/
def mulScalarT (ops : TorchOps τ) (c : Nat) (x : Tensor τ) : Tensor τ :=
  ⟨⟨x.vt.dims, ops.mulScalarVal c x.vt⟩, x.grad⟩

/-- x.view(b, -1): reshape, values untouched. -/
def viewB (b : Nat) (x : Tensor τ) : Tensor τ :=
  ⟨⟨[b, numel x.vt.dims / b], x.vt.val⟩, x.grad⟩

/-- x.view(b, l, -1): reshape, values untouched. -/
def viewBL (b l : Nat) (x : Tensor τ) : Tensor τ :=
  ⟨⟨[b, l, numel x.vt.dims / (b * l)], x.vt.val⟩, x.grad⟩

/-- torch.sigmoid / nn.Sigmoid: shape preserving. -/
def sigmoidT (ops : TorchOps τ) (x : Tensor τ) : Tensor τ :=
  ⟨⟨x.vt.dims, ops.sigmoidVal x.vt⟩, x.grad⟩

def linearT (l : LinearM τ) (x : Tensor τ) : Tensor τ := ⟨l.apply x.vt, x.grad⟩

/-- Modelled from the spec: the module-level pSp experiment state -- the
separately loaded pretrained encoder `pSp_pretrain`, its transform pipeline
`img_transforms`, and `run_on_batch`; vestigial global state that no forward
method reads. -/
structure PSpGlobals where
  encoder : Nat
  transform : Nat
deriving DecidableEq

/-- The configuration fields (CfgNode) read by the builder classes. -/
structure Cfg where
  arch : String
  depth : Nat
  numGroups : Nat
  widthPerGroup : Nat
  detectionEnable : Bool
  jitterEnable : Bool
  betaInv : Nat
  fusionConvChannelRatio : Nat
  fusionKernelSz : Nat
  alpha : Nat
  numClasses : Nat
  numFrames : Nat
  cropSize : Nat
  trainCropSize : Nat
  testCropSize : Nat
  labels : List String
  multigridShortCycle : Bool
deriving DecidableEq

/-- Outcome of a failing construction: a python assert raises AssertionError,
the detection branch raises NotImplementedError. -/
inductive BuildErr where
  | assertionError
  | notImplementedError
deriving DecidableEq

/-- _POOL1: pool sizes per architecture name; its keys are the recognized
architecture names. -/
def _POOL1 : List (String × List (List Nat)) :=
  [("c2d", [[2, 1, 1]]),
   ("c2d_nopool", [[1, 1, 1]]),
   ("i3d", [[2, 1, 1]]),
   ("r3d_18", [[2, 1, 1]]),
   ("i3d_nopool", [[1, 1, 1]]),
   ("slow", [[1, 1, 1]]),
   ("slowfast", [[1, 1, 1], [1, 1, 1]])]

/-- _MODEL_STAGE_DEPTH: number of blocks per stage for each supported
residual depth. -/
def _MODEL_STAGE_DEPTH : List (Nat × (Nat × Nat × Nat × Nat)) :=
  [(18, (2, 2, 2, 2)), (50, (3, 4, 6, 3)), (101, (3, 4, 23, 3))]

/-- The recognized architecture names (the keys of _POOL1). -/
def archKeys : List String :=
  ["c2d", "c2d_nopool", "i3d", "r3d_18", "i3d_nopool", "slow", "slowfast"]

/-- The single-pathway architecture names (pool table entries of length 1). -/
def singleArchKeys : List String :=
  ["c2d", "c2d_nopool", "i3d", "r3d_18", "i3d_nopool", "slow"]

/-- The supported residual depths (the keys of _MODEL_STAGE_DEPTH). -/
def depthKeys : List Nat := [18, 50, 101]

/-- The module registry of an nn.Module under construction: the registered
(sub-module name, parameter-object id) pairs in add_module order, plus the
fresh-id allocation counter standing for object allocation. -/
structure ModuleReg where
  entries : List (String × Nat)
  nextId : Nat
deriving DecidableEq

/-- dual_define(name, labels, net): for each label, add_module with the
synthesised name and a copy.deepcopy of the prototype.  deepcopy builds a
fresh, unshared parameter object each time, modelled by drawing a fresh id
from the allocation counter. -/
def dualDefine (name : String) : List String → ModuleReg → ModuleReg
  | [], st => st
  | l :: ls, st =>
      dualDefine name ls ⟨st.entries ++ [(name ++ "_" ++ l, st.nextId)], st.nextId + 1⟩

/-- The three dual_define calls issued by every ResUNet-family
_construct_network, in source order: t4 first, then t3, then conv1x1. -/
def dualModules (labels : List String) : ModuleReg :=
  dualDefine "conv1x1" labels (dualDefine "t3" labels (dualDefine "t4" labels ⟨[], 0⟩))

/-- Dict lookup in the module registry; a later add_module under the same name
overwrites an earlier one, so the last matching entry wins. -/
def lookupLast (n : String) : List (String × Nat) → Option Nat
  | [] => none
  | e :: es =>
      match lookupLast n es with
      | some v => some v
      | none => if e.1 = n then some e.2 else none

def isOkB : Except ε α → Bool
  | .ok _ => true
  | .error _ => false

/-- Construction record of a SlowFast model (the configuration-derived facts
the asserts and the detection branch guard). -/
structure SlowFastDesc where
  poolSize : List (List Nat)
  stageDepths : Nat × Nat × Nat × Nat
  dimInner : Nat
  outDimRatio : Nat
  numClasses : Nat
deriving DecidableEq

/-- SlowFast.__init__ / SlowFast._construct_network: the three asserts
(arch recognized, pool table length equals the 2 declared pathways, depth
supported) run first; with detection enabled the head branch raises
NotImplementedError; otherwise construction completes. -/
def SlowFast.construct (cfg : Cfg) : Except BuildErr SlowFastDesc :=
  match List.lookup cfg.arch _POOL1 with
  | none => .error .assertionError
  | some pool_size =>
    if pool_size.length = 2 then
      match List.lookup cfg.depth _MODEL_STAGE_DEPTH with
      | none => .error .assertionError
      | some d =>
        if cfg.detectionEnable then .error .notImplementedError
        else
          .ok { poolSize := pool_size, stageDepths := d,
                dimInner := cfg.numGroups * cfg.widthPerGroup,
                outDimRatio := cfg.betaInv / cfg.fusionConvChannelRatio,
                numClasses := cfg.numClasses }
    else .error .assertionError

/-- Construction record of the single-pathway ResNet-style models. -/
structure ResNetDesc where
  poolSize : List (List Nat)
  stageDepths : Nat × Nat × Nat × Nat
  dimInner : Nat
  numClasses : Nat
deriving DecidableEq

/-- ResNet.__init__ / ResNet._construct_network: asserts first (arch
recognized, pool table length equals the 1 declared pathway, depth
supported); with detection enabled the head branch raises
NotImplementedError. -/
def ResNet.construct (cfg : Cfg) : Except BuildErr ResNetDesc :=
  match List.lookup cfg.arch _POOL1 with
  | none => .error .assertionError
  | some pool_size =>
    if pool_size.length = 1 then
      match List.lookup cfg.depth _MODEL_STAGE_DEPTH with
      | none => .error .assertionError
      | some d =>
        if cfg.detectionEnable then .error .notImplementedError
        else
          .ok { poolSize := pool_size, stageDepths := d,
                dimInner := cfg.numGroups * cfg.widthPerGroup,
                numClasses := cfg.numClasses }
    else .error .assertionError

/-- ResNetVar.__init__ / ResNetVar._construct_network: same checks and
detection branch as ResNet. -/
def ResNetVar.construct (cfg : Cfg) : Except BuildErr ResNetDesc :=
  match List.lookup cfg.arch _POOL1 with
  | none => .error .assertionError
  | some pool_size =>
    if pool_size.length = 1 then
      match List.lookup cfg.depth _MODEL_STAGE_DEPTH with
      | none => .error .assertionError
      | some d =>
        if cfg.detectionEnable then .error .notImplementedError
        else
          .ok { poolSize := pool_size, stageDepths := d,
                dimInner := cfg.numGroups * cfg.widthPerGroup,
                numClasses := cfg.numClasses }
    else .error .assertionError

/-- ResNetBase.__init__ / ResNetBase._construct_network: same checks and
detection branch as ResNet. -/
def ResNetBase.construct (cfg : Cfg) : Except BuildErr ResNetDesc :=
  match List.lookup cfg.arch _POOL1 with
  | none => .error .assertionError
  | some pool_size =>
    if pool_size.length = 1 then
      match List.lookup cfg.depth _MODEL_STAGE_DEPTH with
      | none => .error .assertionError
      | some d =>
        if cfg.detectionEnable then .error .notImplementedError
        else
          .ok { poolSize := pool_size, stageDepths := d,
                dimInner := cfg.numGroups * cfg.widthPerGroup,
                numClasses := cfg.numClasses }
    else .error .assertionError

/-- ResNetFreeze.__init__ / ResNetFreeze._construct_network: same checks and
detection branch as ResNet. -/
def ResNetFreeze.construct (cfg : Cfg) : Except BuildErr ResNetDesc :=
  match List.lookup cfg.arch _POOL1 with
  | none => .error .assertionError
  | some pool_size =>
    if pool_size.length = 1 then
      match List.lookup cfg.depth _MODEL_STAGE_DEPTH with
      | none => .error .assertionError
      | some d =>
        if cfg.detectionEnable then .error .notImplementedError
        else
          .ok { poolSize := pool_size, stageDepths := d,
                dimInner := cfg.numGroups * cfg.widthPerGroup,
                numClasses := cfg.numClasses }
    else .error .assertionError

/-- Construction record of a ResUNet-family model: the label set, the module
registry produced by the three dual_define calls, and the declared input
channels of the per-label 1x1x1 head. -/
structure ResUNetDesc where
  poolSize : List (List Nat)
  stageDepths : Nat × Nat × Nat × Nat
  labels : List String
  modules : List (String × Nat)
  conv1x1InC : Nat
deriving DecidableEq

/-- ResUNet.__init__ / ResUNet._construct_network: __init__ asserts
TRAIN_CROP_SIZE == TEST_CROP_SIZE, then the arch / pool-length / depth
asserts run; the detection flag is read into self.enable_detection but never
checked, so construction completes with detection enabled. -/
def ResUNet.construct (cfg : Cfg) : Except BuildErr ResUNetDesc :=
  if cfg.trainCropSize = cfg.testCropSize then
    match List.lookup cfg.arch _POOL1 with
    | none => .error .assertionError
    | some pool_size =>
      if pool_size.length = 1 then
        match List.lookup cfg.depth _MODEL_STAGE_DEPTH with
        | none => .error .assertionError
        | some d =>
          .ok { poolSize := pool_size, stageDepths := d,
                labels := ["rotate", "light"],
                modules := (dualModules ["rotate", "light"]).entries,
                conv1x1InC := cfg.widthPerGroup * 4 + cfg.widthPerGroup }
      else .error .assertionError
  else .error .assertionError

/-- ResUNetLight.__init__ / _construct_network: same checks as ResUNet; the
per-label head reads 128 + width_per_group channels. -/
def ResUNetLight.construct (cfg : Cfg) : Except BuildErr ResUNetDesc :=
  if cfg.trainCropSize = cfg.testCropSize then
    match List.lookup cfg.arch _POOL1 with
    | none => .error .assertionError
    | some pool_size =>
      if pool_size.length = 1 then
        match List.lookup cfg.depth _MODEL_STAGE_DEPTH with
        | none => .error .assertionError
        | some d =>
          .ok { poolSize := pool_size, stageDepths := d,
                labels := ["rotate", "light"],
                modules := (dualModules ["rotate", "light"]).entries,
                conv1x1InC := 128 + cfg.widthPerGroup }
      else .error .assertionError
  else .error .assertionError

/-- ResUNetLightFix.__init__ / _construct_network: same checks; labels are
rotate, light and skip. -/
def ResUNetLightFix.construct (cfg : Cfg) : Except BuildErr ResUNetDesc :=
  if cfg.trainCropSize = cfg.testCropSize then
    match List.lookup cfg.arch _POOL1 with
    | none => .error .assertionError
    | some pool_size =>
      if pool_size.length = 1 then
        match List.lookup cfg.depth _MODEL_STAGE_DEPTH with
        | none => .error .assertionError
        | some d =>
          .ok { poolSize := pool_size, stageDepths := d,
                labels := ["rotate", "light", "skip"],
                modules := (dualModules ["rotate", "light", "skip"]).entries,
                conv1x1InC := 128 + cfg.widthPerGroup }
      else .error .assertionError
  else .error .assertionError

/-- ResUNetContinus.__init__ / _construct_network: same checks; the single
label is "all". -/
def ResUNetContinus.construct (cfg : Cfg) : Except BuildErr ResUNetDesc :=
  if cfg.trainCropSize = cfg.testCropSize then
    match List.lookup cfg.arch _POOL1 with
    | none => .error .assertionError
    | some pool_size =>
      if pool_size.length = 1 then
        match List.lookup cfg.depth _MODEL_STAGE_DEPTH with
        | none => .error .assertionError
        | some d =>
          .ok { poolSize := pool_size, stageDepths := d,
                labels := ["all"],
                modules := (dualModules ["all"]).entries,
                conv1x1InC := 128 + cfg.widthPerGroup }
      else .error .assertionError
  else .error .assertionError

/-- ResUNetCommon.__init__ / _construct_network: same checks; the labels come
from cfg.RESNET.LABELS. -/
def ResUNetCommon.construct (cfg : Cfg) : Except BuildErr ResUNetDesc :=
  if cfg.trainCropSize = cfg.testCropSize then
    match List.lookup cfg.arch _POOL1 with
    | none => .error .assertionError
    | some pool_size =>
      if pool_size.length = 1 then
        match List.lookup cfg.depth _MODEL_STAGE_DEPTH with
        | none => .error .assertionError
        | some d =>
          .ok { poolSize := pool_size, stageDepths := d,
                labels := cfg.labels,
                modules := (dualModules cfg.labels).entries,
                conv1x1InC := 128 + cfg.widthPerGroup }
      else .error .assertionError
  else .error .assertionError

/-- ResUNetCommon2.__init__ / _construct_network: same checks as
ResUNetCommon. -/
def ResUNetCommon2.construct (cfg : Cfg) : Except BuildErr ResUNetDesc :=
  if cfg.trainCropSize = cfg.testCropSize then
    match List.lookup cfg.arch _POOL1 with
    | none => .error .assertionError
    | some pool_size =>
      if pool_size.length = 1 then
        match List.lookup cfg.depth _MODEL_STAGE_DEPTH with
        | none => .error .assertionError
        | some d =>
          .ok { poolSize := pool_size, stageDepths := d,
                labels := cfg.labels,
                modules := (dualModules cfg.labels).entries,
                conv1x1InC := 128 + cfg.widthPerGroup }
      else .error .assertionError
  else .error .assertionError

/-- ResUNetStrong.__init__ / _construct_network: same checks as ResUNetCommon;
the per-label head reads width_per_group*4 + width_per_group channels. -/
def ResUNetStrong.construct (cfg : Cfg) : Except BuildErr ResUNetDesc :=
  if cfg.trainCropSize = cfg.testCropSize then
    match List.lookup cfg.arch _POOL1 with
    | none => .error .assertionError
    | some pool_size =>
      if pool_size.length = 1 then
        match List.lookup cfg.depth _MODEL_STAGE_DEPTH with
        | none => .error .assertionError
        | some d =>
          .ok { poolSize := pool_size, stageDepths := d,
                labels := cfg.labels,
                modules := (dualModules cfg.labels).entries,
                conv1x1InC := cfg.widthPerGroup * 4 + cfg.widthPerGroup }
      else .error .assertionError
  else .error .assertionError

/-- FuseFastToSlow: the lateral fusion module of the SlowFast network. -/
structure FuseFastToSlow (τ : Type) where
  conv_f2s : Conv3dM τ
  bn : NormM τ
  relu : ActM τ

/-- FuseFastToSlow.__init__(dim_in, fusion_conv_channel_ratio, fusion_kernel,
alpha): a Conv3d from dim_in to dim_in * fusion_conv_channel_ratio channels
with kernel [fusion_kernel, 1, 1], stride [alpha, 1, 1], padding
[fusion_kernel // 2, 0, 0] and no bias, followed by the norm module and a
ReLU. -/
def FuseFastToSlow.init (dim_in fusion_conv_channel_ratio fusion_kernel alpha : Nat)
    (convV bnV reluV : VT τ → τ) : FuseFastToSlow τ :=
  { conv_f2s :=
      { inC := dim_in, outC := dim_in * fusion_conv_channel_ratio,
        kT := fusion_kernel, kH := 1, kW := 1,
        sT := alpha, sH := 1, sW := 1,
        pT := fusion_kernel / 2, pH := 0, pW := 0,
        bias := false, valF := convV },
    bn := { features := dim_in * fusion_conv_channel_ratio, valF := bnV },
    relu := { valF := reluV } }

/-- FuseFastToSlow.forward: x_s = x[0]; x_f = x[1];
fuse = relu(bn(conv_f2s(x_f))); return [cat([x_s, fuse], 1), x_f]. -/
def FuseFastToSlow.forward [Inhabited τ] (ops : TorchOps τ) (m : FuseFastToSlow τ)
    (x : List (Tensor τ)) : List (Tensor τ) :=
  let x_s := x.getD 0 default
  let x_f := x.getD 1 default
  let fuse := liftL m.conv_f2s.apply x_f
  let fuse := liftL m.bn.apply fuse
  let fuse := liftL m.relu.apply fuse
  let x_s_fuse := catT ops x_s fuse
  [x_s_fuse, x_f]

/-- Runtime module record of a SlowFast model: the stem and residual stages
and the head are framework modules (abstract per-pathway transforms), the
fusion modules are the FuseFastToSlow instances, and the per-pathway pools are
the dynamically looked-up pathway pool modules. -/
structure SlowFastM (τ : Type) where
  enableDetection : Bool
  numPathways : Nat
  s1 : Nat → VT τ → VT τ
  s2 : Nat → VT τ → VT τ
  s3 : Nat → VT τ → VT τ
  s4 : Nat → VT τ → VT τ
  s5 : Nat → VT τ → VT τ
  s1fuse : FuseFastToSlow τ
  s2fuse : FuseFastToSlow τ
  s3fuse : FuseFastToSlow τ
  s4fuse : FuseFastToSlow τ
  pathwayPool : Nat → VT τ → VT τ
  headF : List (VT τ) → Option (VT τ) → VT τ

/-- The intermediate pathway lists of SlowFast.forward, in order: after s1,
s1_fuse, s2, s2_fuse, the pathway pooling loop, s3, s3_fuse, s4, s4_fuse and
s5. -/
def SlowFast.backboneTrace [Inhabited τ] (ops : TorchOps τ) (m : SlowFastM τ)
    (x : List (Tensor τ)) : List (List (Tensor τ)) :=
  let y1 := stageApp m.s1 x
  let y1f := FuseFastToSlow.forward ops m.s1fuse y1
  let y2 := stageApp m.s2 y1f
  let y2f := FuseFastToSlow.forward ops m.s2fuse y2
  let yp := poolLoop m.pathwayPool m.numPathways y2f
  let y3 := stageApp m.s3 yp
  let y3f := FuseFastToSlow.forward ops m.s3fuse y3
  let y4 := stageApp m.s4 y3f
  let y4f := FuseFastToSlow.forward ops m.s4fuse y4
  let y5 := stageApp m.s5 y4f
  [y1, y1f, y2, y2f, yp, y3, y3f, y4, y4f, y5]

/-- SlowFast.forward(x, bboxes=None): s1, s1_fuse, s2, s2_fuse, per-pathway
pooling, s3, s3_fuse, s4, s4_fuse, s5, then the head (with bboxes only on the
detection path). -/
def SlowFast.forward [Inhabited τ] (ops : TorchOps τ) (m : SlowFastM τ)
    (gs : PSpGlobals) (x : List (Tensor τ)) (bboxes : Option (VT τ)) : Tensor τ :=
  let x := stageApp m.s1 x
  let x := FuseFastToSlow.forward ops m.s1fuse x
  let x := stageApp m.s2 x
  let x := FuseFastToSlow.forward ops m.s2fuse x
  let x := poolLoop m.pathwayPool m.numPathways x
  let x := stageApp m.s3 x
  let x := FuseFastToSlow.forward ops m.s3fuse x
  let x := stageApp m.s4 x
  let x := FuseFastToSlow.forward ops m.s4fuse x
  let x := stageApp m.s5 x
  let r := if m.enableDetection then m.headF (x.map (fun t => t.vt)) bboxes
           else m.headF (x.map (fun t => t.vt)) none
  ⟨r, x.foldr (fun t a => t.grad || a) false⟩

/-- Runtime module record of the single-pathway ResNet-style models (shared
field inventory of ResNet, ResNetVar and ResNetBase). -/
structure ResNetM (τ : Type) where
  enableDetection : Bool
  numPathways : Nat
  s1 : Nat → VT τ → VT τ
  s2 : Nat → VT τ → VT τ
  s3 : Nat → VT τ → VT τ
  s4 : Nat → VT τ → VT τ
  s5 : Nat → VT τ → VT τ
  pathwayPool : Nat → VT τ → VT τ
  headF : List (VT τ) → Option (VT τ) → VT τ

/-- The intermediate pathway lists of ResNet.forward: after s1, s2, the
pathway pooling loop, s3, s4 and s5. -/
def ResNet.backboneTrace [Inhabited τ] (m : ResNetM τ)
    (x : List (Tensor τ)) : List (List (Tensor τ)) :=
  let y1 := stageApp m.s1 x
  let y2 := stageApp m.s2 y1
  let yp := poolLoop m.pathwayPool m.numPathways y2
  let y3 := stageApp m.s3 yp
  let y4 := stageApp m.s4 y3
  let y5 := stageApp m.s5 y4
  [y1, y2, yp, y3, y4, y5]

/-- ResNet.forward(x, bboxes=None): s1, s2, per-pathway pooling, s3, s4, s5,
head; the pSp integration points in the body are commented out and the print
calls do not affect the result. -/
def ResNet.forward [Inhabited τ] (ops : TorchOps τ) (m : ResNetM τ)
    (gs : PSpGlobals) (x : List (Tensor τ)) (bboxes : Option (VT τ)) : Tensor τ :=
  let x := stageApp m.s1 x
  let x := stageApp m.s2 x
  let x := poolLoop m.pathwayPool m.numPathways x
  let x := stageApp m.s3 x
  let x := stageApp m.s4 x
  let x := stageApp m.s5 x
  let r := if m.enableDetection then m.headF (x.map (fun t => t.vt)) bboxes
           else m.headF (x.map (fun t => t.vt)) none
  ⟨r, x.foldr (fun t a => t.grad || a) false⟩

/-- The intermediate pathway lists of ResNetVar.forward (body identical to
ResNet.forward). -/
def ResNetVar.backboneTrace [Inhabited τ] (m : ResNetM τ)
    (x : List (Tensor τ)) : List (List (Tensor τ)) :=
  let y1 := stageApp m.s1 x
  let y2 := stageApp m.s2 y1
  let yp := poolLoop m.pathwayPool m.numPathways y2
  let y3 := stageApp m.s3 yp
  let y4 := stageApp m.s4 y3
  let y5 := stageApp m.s5 y4
  [y1, y2, yp, y3, y4, y5]

/-- ResNetVar.forward(x, bboxes=None): body identical to ResNet.forward. -/
def ResNetVar.forward [Inhabited τ] (ops : TorchOps τ) (m : ResNetM τ)
    (gs : PSpGlobals) (x : List (Tensor τ)) (bboxes : Option (VT τ)) : Tensor τ :=
  let x := stageApp m.s1 x
  let x := stageApp m.s2 x
  let x := poolLoop m.pathwayPool m.numPathways x
  let x := stageApp m.s3 x
  let x := stageApp m.s4 x
  let x := stageApp m.s5 x
  let r := if m.enableDetection then m.headF (x.map (fun t => t.vt)) bboxes
           else m.headF (x.map (fun t => t.vt)) none
  ⟨r, x.foldr (fun t a => t.grad || a) false⟩

/-- The intermediate pathway lists of ResNetBase.forward (body identical to
ResNet.forward). -/
def ResNetBase.backboneTrace [Inhabited τ] (m : ResNetM τ)
    (x : List (Tensor τ)) : List (List (Tensor τ)) :=
  let y1 := stageApp m.s1 x
  let y2 := stageApp m.s2 y1
  let yp := poolLoop m.pathwayPool m.numPathways y2
  let y3 := stageApp m.s3 yp
  let y4 := stageApp m.s4 y3
  let y5 := stageApp m.s5 y4
  [y1, y2, yp, y3, y4, y5]

/-- ResNetBase.forward(x, bboxes=None): body identical to ResNet.forward. -/
def ResNetBase.forward [Inhabited τ] (ops : TorchOps τ) (m : ResNetM τ)
    (gs : PSpGlobals) (x : List (Tensor τ)) (bboxes : Option (VT τ)) : Tensor τ :=
  let x := stageApp m.s1 x
  let x := stageApp m.s2 x
  let x := poolLoop m.pathwayPool m.numPathways x
  let x := stageApp m.s3 x
  let x := stageApp m.s4 x
  let x := stageApp m.s5 x
  let r := if m.enableDetection then m.headF (x.map (fun t => t.vt)) bboxes
           else m.headF (x.map (fun t => t.vt)) none
  ⟨r, x.foldr (fun t a => t.grad || a) false⟩

/-- Runtime module record of ResNetFreeze; the pathway pool is constructed but
its forward never calls it, and the head is only ever called as head(x). -/
structure ResNetFreezeM (τ : Type) where
  enableDetection : Bool
  numPathways : Nat
  s1 : Nat → VT τ → VT τ
  s2 : Nat → VT τ → VT τ
  s3 : Nat → VT τ → VT τ
  s4 : Nat → VT τ → VT τ
  s5 : Nat → VT τ → VT τ
  pathwayPool : Nat → VT τ → VT τ
  headF : List (VT τ) → VT τ

/-- The intermediate pathway lists of ResNetFreeze.forward: after s1, s2, s3,
s4 and s5 (the pooling loop between s2 and s3 is commented out). -/
def ResNetFreeze.backboneTrace (m : ResNetFreezeM τ)
    (x : List (Tensor τ)) : List (List (Tensor τ)) :=
  let y1 := stageApp m.s1 x
  let y2 := stageApp m.s2 y1
  let y3 := stageApp m.s3 y2
  let y4 := stageApp m.s4 y3
  let y5 := stageApp m.s5 y4
  [y1, y2, y3, y4, y5]

/-- ResNetFreeze.forward(x, freeze_backbone=False): s1, s2 (no pooling: the
loop is commented out), s3, s4, s5; with freeze_backbone the stage-5 features
are detached; then the head. -/
def ResNetFreeze.forward (m : ResNetFreezeM τ) (gs : PSpGlobals)
    (x : List (Tensor τ)) (freeze_backbone : Bool) : Tensor τ :=
  let x := stageApp m.s1 x
  let x := stageApp m.s2 x
  let x := stageApp m.s3 x
  let x := stageApp m.s4 x
  let x := stageApp m.s5 x
  let x := if freeze_backbone then x.map Tensor.detach else x
  ⟨m.headF (x.map (fun t => t.vt)), x.foldr (fun t a => t.grad || a) false⟩

/-- The upsample method shared verbatim by the ResUNet-family classes: read
(t, h, w) = x[0].shape[2:5], double h and w when "space" is requested and t
when "time" is requested, and F.interpolate x[0] to that size.  Every call
site passes the default dims=["space"]. -/
def unetUpsample [Inhabited τ] (ops : TorchOps τ) (x : List (Tensor τ))
    (dims : List String) : List (Tensor τ) :=
  let x0 := x.getD 0 default
  let t := dimAt x0.vt.dims 2
  let h := dimAt x0.vt.dims 3
  let w := dimAt x0.vt.dims 4
  let h := if dims.contains "space" then 2 * h else h
  let w := if dims.contains "space" then 2 * w else w
  let t := if dims.contains "time" then 2 * t else t
  [{ vt := ⟨[dimAt x0.vt.dims 0, dimAt x0.vt.dims 1, t, h, w],
             ops.interpVal t h w x0.vt⟩,
     grad := x0.grad }]

/-- The concat method shared verbatim by the ResUNet-family classes:
[torch.cat([x[0], y[0]], 1)]. -/
def unetConcat [Inhabited τ] (ops : TorchOps τ) (x y : List (Tensor τ)) :
    List (Tensor τ) :=
  [catT ops (x.getD 0 default) (y.getD 0 default)]

/-- The get_detach_var method shared verbatim by the ResUNet-family classes:
[t.detach() for t in x]. -/
def getDetachVar (x : List (Tensor τ)) : List (Tensor τ) := x.map Tensor.detach

/-- Runtime module record shared by ResUNet and ResUNetLight: backbone stages
s1..s4, the constructed-but-unused pathway pool, the per-label decoder blocks
t4 and t3 (DecoderBlock / LightDecoderBlock live outside this repository's
sources, hence abstract transforms), and the per-label head declared as
nn.Sequential(nn.Conv3d(conv1x1InC, 1, (1,1,1), stride 1, padding 0),
nn.Sigmoid()).  The final projection is declared as
nn.Sequential(nn.Linear(1, 1), nn.Sigmoid()). -/
structure ResUNetM (τ : Type) where
  enableDetection : Bool
  enableJitter : Bool
  numPathways : Nat
  imageSize : Nat
  clipSize : Nat
  labels : List String
  s1 : Nat → VT τ → VT τ
  s2 : Nat → VT τ → VT τ
  s3 : Nat → VT τ → VT τ
  s4 : Nat → VT τ → VT τ
  pathwayPool : Nat → VT τ → VT τ
  t4F : String → VT τ → VT τ
  t3F : String → VT τ → VT τ
  conv1x1InC : Nat
  conv1x1Val : String → VT τ → τ
  linearVal : VT τ → τ

/-- The per-label 1x1x1 convolution of the ResUNet / ResUNetLight head, as
declared at construction: out channels 1, kernel (1,1,1), stride 1,
padding 0. -/
def ResUNetM.conv1x1 (m : ResUNetM τ) (label : String) : Conv3dM τ :=
  { inC := m.conv1x1InC, outC := 1,
    kT := 1, kH := 1, kW := 1, sT := 1, sH := 1, sW := 1,
    pT := 0, pH := 0, pW := 0, bias := true, valF := m.conv1x1Val label }

/-- ResUNet.forward_branch(x, x1, x2, label): t4_label on x[0], upsample,
concat with x2, t3_label, concat with x1, then the per-label conv1x1 head
(conv followed by its Sigmoid). -/
def ResUNet.forwardBranch [Inhabited τ] (ops : TorchOps τ) (m : ResUNetM τ)
    (x x1 x2 : List (Tensor τ)) (label : String) : Tensor τ :=
  let x := liftL (m.t4F label) (x.getD 0 default)
  let x := unetUpsample ops [x] ["space"]
  let x := unetConcat ops x2 x
  let x := liftL (m.t3F label) (x.getD 0 default)
  let x := unetConcat ops x1 [x]
  let x := liftL (m.conv1x1 label).apply (x.getD 0 default)
  sigmoidT ops x

/-- The intermediate pathway lists of ResUNet.forward: after s1, s2, s3 and
s4 (no pooling loop appears in the body). -/
def ResUNet.backboneTrace (m : ResUNetM τ)
    (x : List (Tensor τ)) : List (List (Tensor τ)) :=
  let x1 := stageApp m.s1 x
  let x2 := stageApp m.s2 x1
  let x3 := stageApp m.s3 x2
  let x4 := stageApp m.s4 x3
  [x1, x2, x3, x4]

/-- ResUNet.forward(x, bboxes=None): backbone s1..s4, upsample, concat with
x3, one decoder branch per label, cat along channels; then
out = x.mean([3,4]).view(-1,1)*100, the Linear(1,1)+Sigmoid projection, and
out.view(x.size(0), -1); returns (x, out). -/
def ResUNet.forward [Inhabited τ] (ops : TorchOps τ) (m : ResUNetM τ)
    (gs : PSpGlobals) (x : List (Tensor τ)) (bboxes : Option (VT τ)) :
    Tensor τ × Tensor τ :=
  let x1 := stageApp m.s1 x
  let x2 := stageApp m.s2 x1
  let x3 := stageApp m.s3 x2
  let x := stageApp m.s4 x3
  let x := unetUpsample ops x ["space"]
  let x := unetConcat ops x3 x
  let xs := m.labels.map (fun label => ResUNet.forwardBranch ops m x x1 x2 label)
  let x := catTList ops xs
  let out := mulScalarT ops 100 (viewN1 (meanT34 ops x))
  let out := sigmoidT ops (linearT { inF := 1, outF := 1, valF := m.linearVal } out)
  let out := viewB (dimAt x.vt.dims 0) out
  (x, out)

/-- ResUNetLight.forward_branch: same wiring as ResUNet.forward_branch with
the LightDecoderBlock instances. -/
def ResUNetLight.forwardBranch [Inhabited τ] (ops : TorchOps τ) (m : ResUNetM τ)
    (x x1 x2 : List (Tensor τ)) (label : String) : Tensor τ :=
  let x := liftL (m.t4F label) (x.getD 0 default)
  let x := unetUpsample ops [x] ["space"]
  let x := unetConcat ops x2 x
  let x := liftL (m.t3F label) (x.getD 0 default)
  let x := unetConcat ops x1 [x]
  let x := liftL (m.conv1x1 label).apply (x.getD 0 default)
  sigmoidT ops x

/-- The intermediate pathway lists of ResUNetLight.forward: after s1, s2, s3
and s4. -/
def ResUNetLight.backboneTrace (m : ResUNetM τ)
    (x : List (Tensor τ)) : List (List (Tensor τ)) :=
  let x1 := stageApp m.s1 x
  let x2 := stageApp m.s2 x1
  let x3 := stageApp m.s3 x2
  let x4 := stageApp m.s4 x3
  [x1, x2, x3, x4]

/-- ResUNetLight.forward(x, freeze_backbone=False): backbone s1..s4; with
freeze_backbone all four feature lists are detached; then the same decoder,
cat, mean/view/linear pipeline as ResUNet. -/
def ResUNetLight.forward [Inhabited τ] (ops : TorchOps τ) (m : ResUNetM τ)
    (gs : PSpGlobals) (x : List (Tensor τ)) (freeze_backbone : Bool) :
    Tensor τ × Tensor τ :=
  let x1 := stageApp m.s1 x
  let x2 := stageApp m.s2 x1
  let x3 := stageApp m.s3 x2
  let x := stageApp m.s4 x3
  let x := if freeze_backbone then getDetachVar x else x
  let x1 := if freeze_backbone then getDetachVar x1 else x1
  let x2 := if freeze_backbone then getDetachVar x2 else x2
  let x3 := if freeze_backbone then getDetachVar x3 else x3
  let x := unetUpsample ops x ["space"]
  let x := unetConcat ops x3 x
  let xs := m.labels.map (fun label => ResUNetLight.forwardBranch ops m x x1 x2 label)
  let x := catTList ops xs
  let out := mulScalarT ops 100 (viewN1 (meanT34 ops x))
  let out := sigmoidT ops (linearT { inF := 1, outF := 1, valF := m.linearVal } out)
  let out := viewB (dimAt x.vt.dims 0) out
  (x, out)

/-- Runtime module record shared by ResUNetLightFix, ResUNetContinus,
ResUNetCommon, ResUNetCommon2 and ResUNetStrong: as ResUNetM, but the
per-label head is declared as nn.Sequential(Conv3d(conv1x1InC, conv1x1Mid,
(1,1,1)), BatchNorm3d(conv1x1Mid), ReLU(), Conv3d(conv1x1Mid, 1, (1,1,1)))
(conv1x1Mid is 64, or 128 for ResUNetStrong), and the final projection is a
bare nn.Linear. -/
structure UNetFixM (τ : Type) where
  enableDetection : Bool
  enableJitter : Bool
  numPathways : Nat
  imageSize : Nat
  clipSize : Nat
  labels : List String
  s1 : Nat → VT τ → VT τ
  s2 : Nat → VT τ → VT τ
  s3 : Nat → VT τ → VT τ
  s4 : Nat → VT τ → VT τ
  pathwayPool : Nat → VT τ → VT τ
  t4F : String → VT τ → VT τ
  t3F : String → VT τ → VT τ
  conv1x1InC : Nat
  conv1x1Mid : Nat
  conv1x1aVal : String → VT τ → τ
  conv1x1bnVal : String → VT τ → τ
  conv1x1reluVal : String → VT τ → τ
  conv1x1bVal : String → VT τ → τ
  linearVal : VT τ → τ

/-- The per-label head of the Fix-style classes applied to a feature tensor:
Conv3d(inC, mid, 1x1x1) -> BatchNorm3d(mid) -> ReLU -> Conv3d(mid, 1,
1x1x1), all stride 1, padding 0. -/
def UNetFixM.conv1x1Apply (m : UNetFixM τ) (label : String) (x : VT τ) : VT τ :=
  let c1 : Conv3dM τ :=
    { inC := m.conv1x1InC, outC := m.conv1x1Mid,
      kT := 1, kH := 1, kW := 1, sT := 1, sH := 1, sW := 1,
      pT := 0, pH := 0, pW := 0, bias := true, valF := m.conv1x1aVal label }
  let x := c1.apply x
  let x := NormM.apply { features := m.conv1x1Mid, valF := m.conv1x1bnVal label } x
  let x := ActM.apply { valF := m.conv1x1reluVal label } x
  let c2 : Conv3dM τ :=
    { inC := m.conv1x1Mid, outC := 1,
      kT := 1, kH := 1, kW := 1, sT := 1, sH := 1, sW := 1,
      pT := 0, pH := 0, pW := 0, bias := true, valF := m.conv1x1bVal label }
  c2.apply x

/-- forward_branch shared in wiring by the Fix-style classes: t4_label,
upsample, concat with x2, t3_label, concat with x1, then the per-label
conv-bn-relu-conv head (no sigmoid inside the branch). -/
def UNetFix.forwardBranch [Inhabited τ] (ops : TorchOps τ) (m : UNetFixM τ)
    (x x1 x2 : List (Tensor τ)) (label : String) : Tensor τ :=
  let x := liftL (m.t4F label) (x.getD 0 default)
  let x := unetUpsample ops [x] ["space"]
  let x := unetConcat ops x2 x
  let x := liftL (m.t3F label) (x.getD 0 default)
  let x := unetConcat ops x1 [x]
  liftL (m.conv1x1Apply label) (x.getD 0 default)

/-- The intermediate pathway lists of ResUNetLightFix.forward: after s1, s2,
s3 and s4. -/
def ResUNetLightFix.backboneTrace (m : UNetFixM τ)
    (x : List (Tensor τ)) : List (List (Tensor τ)) :=
  let x1 := stageApp m.s1 x
  let x2 := stageApp m.s2 x1
  let x3 := stageApp m.s3 x2
  let x4 := stageApp m.s4 x3
  [x1, x2, x3, x4]

/-- ResUNetLightFix.forward(x, freeze_backbone=False): backbone s1..s4 with
optional detach of all four feature lists, decoder branches, cat, then
x = sigmoid(x); out = x.mean([3,4]).view(-1,1)*100, Linear(1,1),
out.view(x.size(0), -1), sigmoid; returns (x, out). -/
def ResUNetLightFix.forward [Inhabited τ] (ops : TorchOps τ) (m : UNetFixM τ)
    (gs : PSpGlobals) (x : List (Tensor τ)) (freeze_backbone : Bool) :
    Tensor τ × Tensor τ :=
  let x1 := stageApp m.s1 x
  let x2 := stageApp m.s2 x1
  let x3 := stageApp m.s3 x2
  let x := stageApp m.s4 x3
  let x := if freeze_backbone then getDetachVar x else x
  let x1 := if freeze_backbone then getDetachVar x1 else x1
  let x2 := if freeze_backbone then getDetachVar x2 else x2
  let x3 := if freeze_backbone then getDetachVar x3 else x3
  let x := unetUpsample ops x ["space"]
  let x := unetConcat ops x3 x
  let xs := m.labels.map (fun label => UNetFix.forwardBranch ops m x x1 x2 label)
  let x := catTList ops xs
  let x := sigmoidT ops x
  let out := mulScalarT ops 100 (viewN1 (meanT34 ops x))
  let out := linearT { inF := 1, outF := 1, valF := m.linearVal } out
  let out := viewB (dimAt x.vt.dims 0) out
  let out := sigmoidT ops out
  (x, out)

/-- The intermediate pathway lists of ResUNetContinus.forward: after s1, s2,
s3 and s4. -/
def ResUNetContinus.backboneTrace (m : UNetFixM τ)
    (x : List (Tensor τ)) : List (List (Tensor τ)) :=
  let x1 := stageApp m.s1 x
  let x2 := stageApp m.s2 x1
  let x3 := stageApp m.s3 x2
  let x4 := stageApp m.s4 x3
  [x1, x2, x3, x4]

/-- ResUNetContinus.forward(x, freeze_backbone=False): body identical to
ResUNetLightFix.forward. -/
def ResUNetContinus.forward [Inhabited τ] (ops : TorchOps τ) (m : UNetFixM τ)
    (gs : PSpGlobals) (x : List (Tensor τ)) (freeze_backbone : Bool) :
    Tensor τ × Tensor τ :=
  let x1 := stageApp m.s1 x
  let x2 := stageApp m.s2 x1
  let x3 := stageApp m.s3 x2
  let x := stageApp m.s4 x3
  let x := if freeze_backbone then getDetachVar x else x
  let x1 := if freeze_backbone then getDetachVar x1 else x1
  let x2 := if freeze_backbone then getDetachVar x2 else x2
  let x3 := if freeze_backbone then getDetachVar x3 else x3
  let x := unetUpsample ops x ["space"]
  let x := unetConcat ops x3 x
  let xs := m.labels.map (fun label => UNetFix.forwardBranch ops m x x1 x2 label)
  let x := catTList ops xs
  let x := sigmoidT ops x
  let out := mulScalarT ops 100 (viewN1 (meanT34 ops x))
  let out := linearT { inF := 1, outF := 1, valF := m.linearVal } out
  let out := viewB (dimAt x.vt.dims 0) out
  let out := sigmoidT ops out
  (x, out)

/-- The intermediate pathway lists of ResUNetCommon.forward: the input is
detached first, then after s1, s2, s3 and s4. -/
def ResUNetCommon.backboneTrace (m : UNetFixM τ)
    (x : List (Tensor τ)) : List (List (Tensor τ)) :=
  let x := getDetachVar x
  let x1 := stageApp m.s1 x
  let x2 := stageApp m.s2 x1
  let x3 := stageApp m.s3 x2
  let x4 := stageApp m.s4 x3
  [x1, x2, x3, x4]

/-- ResUNetCommon.forward(x, freeze_backbone=False): detaches the input,
backbone s1..s4 with optional detach, decoder branches, cat, sigmoid; then
class_out = reg_out.mean([3,4]).view(-1,1)*100, the Linear(1,2) projection
and class_out.view(reg_out.size(0), len(labels), -1); returns
(reg_out, class_out) with no final sigmoid. -/
def ResUNetCommon.forward [Inhabited τ] (ops : TorchOps τ) (m : UNetFixM τ)
    (gs : PSpGlobals) (x : List (Tensor τ)) (freeze_backbone : Bool) :
    Tensor τ × Tensor τ :=
  let x := getDetachVar x
  let x1 := stageApp m.s1 x
  let x2 := stageApp m.s2 x1
  let x3 := stageApp m.s3 x2
  let feat := stageApp m.s4 x3
  let feat := if freeze_backbone then getDetachVar feat else feat
  let x1 := if freeze_backbone then getDetachVar x1 else x1
  let x2 := if freeze_backbone then getDetachVar x2 else x2
  let x3 := if freeze_backbone then getDetachVar x3 else x3
  let feat := unetUpsample ops feat ["space"]
  let feat := unetConcat ops x3 feat
  let rs := m.labels.map (fun label => UNetFix.forwardBranch ops m feat x1 x2 label)
  let reg_out := catTList ops rs
  let reg_out := sigmoidT ops reg_out
  let class_out := mulScalarT ops 100 (viewN1 (meanT34 ops reg_out))
  let class_out := linearT { inF := 1, outF := 2, valF := m.linearVal } class_out
  let class_out := viewBL (dimAt reg_out.vt.dims 0) m.labels.length class_out
  (reg_out, class_out)

/-- The intermediate pathway lists of ResUNetCommon2.forward. -/
def ResUNetCommon2.backboneTrace (m : UNetFixM τ)
    (x : List (Tensor τ)) : List (List (Tensor τ)) :=
  let x := getDetachVar x
  let x1 := stageApp m.s1 x
  let x2 := stageApp m.s2 x1
  let x3 := stageApp m.s3 x2
  let x4 := stageApp m.s4 x3
  [x1, x2, x3, x4]

/-- ResUNetCommon2.forward(x, freeze_backbone=False): as ResUNetCommon but
with the Linear(1,1) projection and a final sigmoid on class_out. -/
def ResUNetCommon2.forward [Inhabited τ] (ops : TorchOps τ) (m : UNetFixM τ)
    (gs : PSpGlobals) (x : List (Tensor τ)) (freeze_backbone : Bool) :
    Tensor τ × Tensor τ :=
  let x := getDetachVar x
  let x1 := stageApp m.s1 x
  let x2 := stageApp m.s2 x1
  let x3 := stageApp m.s3 x2
  let feat := stageApp m.s4 x3
  let feat := if freeze_backbone then getDetachVar feat else feat
  let x1 := if freeze_backbone then getDetachVar x1 else x1
  let x2 := if freeze_backbone then getDetachVar x2 else x2
  let x3 := if freeze_backbone then getDetachVar x3 else x3
  let feat := unetUpsample ops feat ["space"]
  let feat := unetConcat ops x3 feat
  let rs := m.labels.map (fun label => UNetFix.forwardBranch ops m feat x1 x2 label)
  let reg_out := catTList ops rs
  let reg_out := sigmoidT ops reg_out
  let class_out := mulScalarT ops 100 (viewN1 (meanT34 ops reg_out))
  let class_out := linearT { inF := 1, outF := 1, valF := m.linearVal } class_out
  let class_out := viewBL (dimAt reg_out.vt.dims 0) m.labels.length class_out
  let class_out := sigmoidT ops class_out
  (reg_out, class_out)

/-- The intermediate pathway lists of ResUNetStrong.forward. -/
def ResUNetStrong.backboneTrace (m : UNetFixM τ)
    (x : List (Tensor τ)) : List (List (Tensor τ)) :=
  let x := getDetachVar x
  let x1 := stageApp m.s1 x
  let x2 := stageApp m.s2 x1
  let x3 := stageApp m.s3 x2
  let x4 := stageApp m.s4 x3
  [x1, x2, x3, x4]

/-- ResUNetStrong.forward(x, freeze_backbone=False): body identical to
ResUNetCommon2.forward (the ResDecoderBlock branches and the 128-channel
head live in the module record). -/
def ResUNetStrong.forward [Inhabited τ] (ops : TorchOps τ) (m : UNetFixM τ)
    (gs : PSpGlobals) (x : List (Tensor τ)) (freeze_backbone : Bool) :
    Tensor τ × Tensor τ :=
  let x := getDetachVar x
  let x1 := stageApp m.s1 x
  let x2 := stageApp m.s2 x1
  let x3 := stageApp m.s3 x2
  let feat := stageApp m.s4 x3
  let feat := if freeze_backbone then getDetachVar feat else feat
  let x1 := if freeze_backbone then getDetachVar x1 else x1
  let x2 := if freeze_backbone then getDetachVar x2 else x2
  let x3 := if freeze_backbone then getDetachVar x3 else x3
  let feat := unetUpsample ops feat ["space"]
  let feat := unetConcat ops x3 feat
  let rs := m.labels.map (fun label => UNetFix.forwardBranch ops m feat x1 x2 label)
  let reg_out := catTList ops rs
  let reg_out := sigmoidT ops reg_out
  let class_out := mulScalarT ops 100 (viewN1 (meanT34 ops reg_out))
  let class_out := linearT { inF := 1, outF := 1, valF := m.linearVal } class_out
  let class_out := viewBL (dimAt reg_out.vt.dims 0) m.labels.length class_out
  let class_out := sigmoidT ops class_out
  (reg_out, class_out)

/-- The entries appended by one dual_define call when the allocation counter
starts at `k`: one fresh id per label, in order. -/
def dualDefineAux (name : String) : List String → Nat → List (String × Nat)
  | [], _ => []
  | l :: ls, k => (name ++ "_" ++ l, k) :: dualDefineAux name ls (k + 1)

/-- Index of the last occurrence of `l` in a list, if any. -/
def lastIdxOf (l : String) : List String → Option Nat
  | [] => none
  | a :: as =>
      match lastIdxOf l as with
      | some i => some (i + 1)
      | none => if a = l then some 0 else none

/-- Trivial value arithmetic over the unit payload, for concrete witnesses. -/
def opsU : TorchOps Unit :=
  { catVal := fun _ _ => (), interpVal := fun _ _ _ _ => (),
    mean34Val := fun _ => (), mulScalarVal := fun _ _ => (),
    sigmoidVal := fun _ => () }

def pspU : PSpGlobals := ⟨0, 0⟩

def pspU2 : PSpGlobals := ⟨1, 1⟩

/-- A concrete input clip tensor shape (batch 1, 3 channels, 8 frames,
224 x 224). -/
def tU : Tensor Unit := ⟨⟨[1, 3, 8, 224, 224], ()⟩, false⟩

/-- Identity per-pathway transform over the unit payload. -/
def idS : Nat → VT Unit → VT Unit := fun _ v => v

/-- Per-pathway transform that outputs a fixed shape. -/
def constS (d : List Nat) : Nat → VT Unit → VT Unit := fun _ _ => ⟨d, ()⟩

def fuseU : FuseFastToSlow Unit :=
  FuseFastToSlow.init 8 2 5 4 (fun _ => ()) (fun _ => ()) (fun _ => ())

/-- A concrete SlowFast module record for witnesses. -/
def mSFU : SlowFastM Unit :=
  { enableDetection := false, numPathways := 2,
    s1 := idS, s2 := idS, s3 := idS, s4 := idS, s5 := idS,
    s1fuse := fuseU, s2fuse := fuseU, s3fuse := fuseU, s4fuse := fuseU,
    pathwayPool := idS, headF := fun _ _ => ⟨[1, 2], ()⟩ }

/-- A concrete ResNet-style module record for witnesses. -/
def mRNU : ResNetM Unit :=
  { enableDetection := false, numPathways := 1,
    s1 := idS, s2 := idS, s3 := idS, s4 := idS, s5 := idS,
    pathwayPool := idS, headF := fun _ _ => ⟨[1, 2], ()⟩ }

/-- A concrete ResNetFreeze module record for witnesses. -/
def mRNFU : ResNetFreezeM Unit :=
  { enableDetection := false, numPathways := 1,
    s1 := idS, s2 := idS, s3 := idS, s4 := idS, s5 := idS,
    pathwayPool := idS, headF := fun _ => ⟨[1, 2], ()⟩ }

/-- A concrete ResUNet module record whose backbone stages produce the shapes
documented in the source comments (stem output 1 x 64 x 8 x 56 x 56 and so
on), with the two declared labels. -/
def mRUU : ResUNetM Unit :=
  { enableDetection := false, enableJitter := false, numPathways := 1,
    imageSize := 224, clipSize := 8, labels := ["rotate", "light"],
    s1 := constS [1, 64, 8, 56, 56], s2 := constS [1, 256, 8, 56, 56],
    s3 := constS [1, 512, 8, 28, 28], s4 := constS [1, 1024, 8, 14, 14],
    pathwayPool := idS,
    t4F := fun _ v => v, t3F := fun _ v => v,
    conv1x1InC := 320, conv1x1Val := fun _ _ => (), linearVal := fun _ => () }

/-- A concrete Fix-style module record with the same backbone shapes. -/
def mFixU : UNetFixM Unit :=
  { enableDetection := false, enableJitter := false, numPathways := 1,
    imageSize := 224, clipSize := 8, labels := ["rotate", "light", "skip"],
    s1 := constS [1, 64, 8, 56, 56], s2 := constS [1, 256, 8, 56, 56],
    s3 := constS [1, 512, 8, 28, 28], s4 := constS [1, 1024, 8, 14, 14],
    pathwayPool := idS,
    t4F := fun _ v => v, t3F := fun _ v => v,
    conv1x1InC := 192, conv1x1Mid := 64,
    conv1x1aVal := fun _ _ => (), conv1x1bnVal := fun _ _ => (),
    conv1x1reluVal := fun _ _ => (), conv1x1bVal := fun _ _ => (),
    linearVal := fun _ => () }

/-- A baseline valid configuration: single-pathway slow architecture, depth
50, matching crop sizes, detection disabled. -/
def cfgBase : Cfg :=
  { arch := "slow", depth := 50, numGroups := 1, widthPerGroup := 64,
    detectionEnable := false, jitterEnable := false, betaInv := 8,
    fusionConvChannelRatio := 2, fusionKernelSz := 5, alpha := 4,
    numClasses := 2, numFrames := 8, cropSize := 224,
    trainCropSize := 224, testCropSize := 224,
    labels := ["rotate", "light"], multigridShortCycle := false }

/-- A slowfast configuration with detection enabled. -/
def cfgSlowFastDet : Cfg := { cfgBase with arch := "slowfast", detectionEnable := true }

/-- A valid single-pathway configuration with detection enabled. -/
def cfgRUDet : Cfg := { cfgBase with detectionEnable := true }

/-- A configuration whose architecture name is not recognized. -/
def cfgBadArch : Cfg := { cfgBase with arch := "c3d" }

/-- A configuration whose residual depth is not supported. -/
def cfgBadDepth : Cfg := { cfgBase with depth := 34 }

theorem lookupPool_eq_none {a : String} (h : a ∉ archKeys) :
    List.lookup a _POOL1 = none := by
  simp [archKeys] at h
  obtain ⟨h1, h2, h3, h4, h5, h6, h7⟩ := h
  simp [_POOL1, List.lookup, beq_eq_false_iff_ne.mpr h1, beq_eq_false_iff_ne.mpr h2,
    beq_eq_false_iff_ne.mpr h3, beq_eq_false_iff_ne.mpr h4, beq_eq_false_iff_ne.mpr h5,
    beq_eq_false_iff_ne.mpr h6, beq_eq_false_iff_ne.mpr h7]

theorem lookupDepth_eq_none {n : Nat} (h : n ∉ depthKeys) :
    List.lookup n _MODEL_STAGE_DEPTH = none := by
  simp [depthKeys] at h
  obtain ⟨h1, h2, h3⟩ := h
  simp [_MODEL_STAGE_DEPTH, List.lookup, beq_eq_false_iff_ne.mpr h1,
    beq_eq_false_iff_ne.mpr h2, beq_eq_false_iff_ne.mpr h3]

theorem slowFast_construct_assertion (cfg : Cfg)
    (h : cfg.arch ∉ archKeys ∨ cfg.depth ∉ depthKeys) :
    SlowFast.construct cfg = .error .assertionError := by
  unfold SlowFast.construct
  rcases h with h | h
  · rw [lookupPool_eq_none h]
  · split
    · rfl
    · split
      · rw [lookupDepth_eq_none h]
      · rfl

theorem resNet_construct_assertion (cfg : Cfg)
    (h : cfg.arch ∉ archKeys ∨ cfg.depth ∉ depthKeys) :
    ResNet.construct cfg = .error .assertionError := by
  unfold ResNet.construct
  rcases h with h | h
  · rw [lookupPool_eq_none h]
  · split
    · rfl
    · split
      · rw [lookupDepth_eq_none h]
      · rfl

theorem resNetVar_construct_assertion (cfg : Cfg)
    (h : cfg.arch ∉ archKeys ∨ cfg.depth ∉ depthKeys) :
    ResNetVar.construct cfg = .error .assertionError := by
  unfold ResNetVar.construct
  rcases h with h | h
  · rw [lookupPool_eq_none h]
  · split
    · rfl
    · split
      · rw [lookupDepth_eq_none h]
      · rfl

theorem resNetBase_construct_assertion (cfg : Cfg)
    (h : cfg.arch ∉ archKeys ∨ cfg.depth ∉ depthKeys) :
    ResNetBase.construct cfg = .error .assertionError := by
  unfold ResNetBase.construct
  rcases h with h | h
  · rw [lookupPool_eq_none h]
  · split
    · rfl
    · split
      · rw [lookupDepth_eq_none h]
      · rfl

theorem resNetFreeze_construct_assertion (cfg : Cfg)
    (h : cfg.arch ∉ archKeys ∨ cfg.depth ∉ depthKeys) :
    ResNetFreeze.construct cfg = .error .assertionError := by
  unfold ResNetFreeze.construct
  rcases h with h | h
  · rw [lookupPool_eq_none h]
  · split
    · rfl
    · split
      · rw [lookupDepth_eq_none h]
      · rfl

theorem resUNet_construct_assertion (cfg : Cfg)
    (h : cfg.arch ∉ archKeys ∨ cfg.depth ∉ depthKeys) :
    ResUNet.construct cfg = .error .assertionError := by
  unfold ResUNet.construct
  by_cases hc : cfg.trainCropSize = cfg.testCropSize
  · rw [if_pos hc]
    rcases h with h | h
    · rw [lookupPool_eq_none h]
    · split
      · rfl
      · split
        · rw [lookupDepth_eq_none h]
        · rfl
  · rw [if_neg hc]

theorem resUNetLight_construct_assertion (cfg : Cfg)
    (h : cfg.arch ∉ archKeys ∨ cfg.depth ∉ depthKeys) :
    ResUNetLight.construct cfg = .error .assertionError := by
  unfold ResUNetLight.construct
  by_cases hc : cfg.trainCropSize = cfg.testCropSize
  · rw [if_pos hc]
    rcases h with h | h
    · rw [lookupPool_eq_none h]
    · split
      · rfl
      · split
        · rw [lookupDepth_eq_none h]
        · rfl
  · rw [if_neg hc]

theorem resUNetLightFix_construct_assertion (cfg : Cfg)
    (h : cfg.arch ∉ archKeys ∨ cfg.depth ∉ depthKeys) :
    ResUNetLightFix.construct cfg = .error .assertionError := by
  unfold ResUNetLightFix.construct
  by_cases hc : cfg.trainCropSize = cfg.testCropSize
  · rw [if_pos hc]
    rcases h with h | h
    · rw [lookupPool_eq_none h]
    · split
      · rfl
      · split
        · rw [lookupDepth_eq_none h]
        · rfl
  · rw [if_neg hc]

theorem resUNetContinus_construct_assertion (cfg : Cfg)
    (h : cfg.arch ∉ archKeys ∨ cfg.depth ∉ depthKeys) :
    ResUNetContinus.construct cfg = .error .assertionError := by
  unfold ResUNetContinus.construct
  by_cases hc : cfg.trainCropSize = cfg.testCropSize
  · rw [if_pos hc]
    rcases h with h | h
    · rw [lookupPool_eq_none h]
    · split
      · rfl
      · split
        · rw [lookupDepth_eq_none h]
        · rfl
  · rw [if_neg hc]

theorem resUNetCommon_construct_assertion (cfg : Cfg)
    (h : cfg.arch ∉ archKeys ∨ cfg.depth ∉ depthKeys) :
    ResUNetCommon.construct cfg = .error .assertionError := by
  unfold ResUNetCommon.construct
  by_cases hc : cfg.trainCropSize = cfg.testCropSize
  · rw [if_pos hc]
    rcases h with h | h
    · rw [lookupPool_eq_none h]
    · split
      · rfl
      · split
        · rw [lookupDepth_eq_none h]
        · rfl
  · rw [if_neg hc]

theorem resUNetCommon2_construct_assertion (cfg : Cfg)
    (h : cfg.arch ∉ archKeys ∨ cfg.depth ∉ depthKeys) :
    ResUNetCommon2.construct cfg = .error .assertionError := by
  unfold ResUNetCommon2.construct
  by_cases hc : cfg.trainCropSize = cfg.testCropSize
  · rw [if_pos hc]
    rcases h with h | h
    · rw [lookupPool_eq_none h]
    · split
      · rfl
      · split
        · rw [lookupDepth_eq_none h]
        · rfl
  · rw [if_neg hc]

theorem resUNetStrong_construct_assertion (cfg : Cfg)
    (h : cfg.arch ∉ archKeys ∨ cfg.depth ∉ depthKeys) :
    ResUNetStrong.construct cfg = .error .assertionError := by
  unfold ResUNetStrong.construct
  by_cases hc : cfg.trainCropSize = cfg.testCropSize
  · rw [if_pos hc]
    rcases h with h | h
    · rw [lookupPool_eq_none h]
    · split
      · rfl
      · split
        · rw [lookupDepth_eq_none h]
        · rfl
  · rw [if_neg hc]

/-- C4: for every registered model class, a configuration whose architecture
name is outside the recognized set or whose residual depth is outside
18 / 50 / 101 makes construction fail with the assertion error, before any
layer is built. -/
theorem claim_C4_invalid_cfg_asserts (cfg : Cfg)
    (h : cfg.arch ∉ archKeys ∨ cfg.depth ∉ depthKeys) :
    SlowFast.construct cfg = .error .assertionError ∧
    ResNet.construct cfg = .error .assertionError ∧
    ResNetVar.construct cfg = .error .assertionError ∧
    ResNetBase.construct cfg = .error .assertionError ∧
    ResNetFreeze.construct cfg = .error .assertionError ∧
    ResUNet.construct cfg = .error .assertionError ∧
    ResUNetLight.construct cfg = .error .assertionError ∧
    ResUNetLightFix.construct cfg = .error .assertionError ∧
    ResUNetContinus.construct cfg = .error .assertionError ∧
    ResUNetCommon.construct cfg = .error .assertionError ∧
    ResUNetCommon2.construct cfg = .error .assertionError ∧
    ResUNetStrong.construct cfg = .error .assertionError :=
  ⟨slowFast_construct_assertion cfg h, resNet_construct_assertion cfg h,
   resNetVar_construct_assertion cfg h, resNetBase_construct_assertion cfg h,
   resNetFreeze_construct_assertion cfg h, resUNet_construct_assertion cfg h,
   resUNetLight_construct_assertion cfg h, resUNetLightFix_construct_assertion cfg h,
   resUNetContinus_construct_assertion cfg h, resUNetCommon_construct_assertion cfg h,
   resUNetCommon2_construct_assertion cfg h, resUNetStrong_construct_assertion cfg h⟩

/-- C4 witness: the unrecognized architecture name "c3d" makes all twelve
constructions fail with the assertion error. -/
theorem claim_C4_invalid_cfg_asserts_witness :
    SlowFast.construct cfgBadArch = .error .assertionError ∧
    ResNet.construct cfgBadArch = .error .assertionError ∧
    ResNetVar.construct cfgBadArch = .error .assertionError ∧
    ResNetBase.construct cfgBadArch = .error .assertionError ∧
    ResNetFreeze.construct cfgBadArch = .error .assertionError ∧
    ResUNet.construct cfgBadArch = .error .assertionError ∧
    ResUNetLight.construct cfgBadArch = .error .assertionError ∧
    ResUNetLightFix.construct cfgBadArch = .error .assertionError ∧
    ResUNetContinus.construct cfgBadArch = .error .assertionError ∧
    ResUNetCommon.construct cfgBadArch = .error .assertionError ∧
    ResUNetCommon2.construct cfgBadArch = .error .assertionError ∧
    ResUNetStrong.construct cfgBadArch = .error .assertionError :=
  claim_C4_invalid_cfg_asserts cfgBadArch (Or.inl (by decide))

theorem slowFast_construct_detection (cfg : Cfg) (ha : cfg.arch = "slowfast")
    (hd : cfg.depth ∈ depthKeys) (hdet : cfg.detectionEnable = true) :
    SlowFast.construct cfg = .error .notImplementedError := by
  have hd' : cfg.depth = 18 ∨ cfg.depth = 50 ∨ cfg.depth = 101 := by
    simpa [depthKeys] using hd
  unfold SlowFast.construct
  rcases hd' with h | h | h <;> rw [ha, h, hdet] <;> rfl

theorem resNet_construct_detection (cfg : Cfg) (ha : cfg.arch ∈ singleArchKeys)
    (hd : cfg.depth ∈ depthKeys) (hdet : cfg.detectionEnable = true) :
    ResNet.construct cfg = .error .notImplementedError := by
  have ha' : cfg.arch = "c2d" ∨ cfg.arch = "c2d_nopool" ∨ cfg.arch = "i3d" ∨
      cfg.arch = "r3d_18" ∨ cfg.arch = "i3d_nopool" ∨ cfg.arch = "slow" := by
    simpa [singleArchKeys] using ha
  have hd' : cfg.depth = 18 ∨ cfg.depth = 50 ∨ cfg.depth = 101 := by
    simpa [depthKeys] using hd
  unfold ResNet.construct
  rcases ha' with h1 | h1 | h1 | h1 | h1 | h1 <;> rcases hd' with h2 | h2 | h2 <;>
    rw [h1, h2, hdet] <;> rfl

theorem resNetVar_construct_detection (cfg : Cfg) (ha : cfg.arch ∈ singleArchKeys)
    (hd : cfg.depth ∈ depthKeys) (hdet : cfg.detectionEnable = true) :
    ResNetVar.construct cfg = .error .notImplementedError := by
  have ha' : cfg.arch = "c2d" ∨ cfg.arch = "c2d_nopool" ∨ cfg.arch = "i3d" ∨
      cfg.arch = "r3d_18" ∨ cfg.arch = "i3d_nopool" ∨ cfg.arch = "slow" := by
    simpa [singleArchKeys] using ha
  have hd' : cfg.depth = 18 ∨ cfg.depth = 50 ∨ cfg.depth = 101 := by
    simpa [depthKeys] using hd
  unfold ResNetVar.construct
  rcases ha' with h1 | h1 | h1 | h1 | h1 | h1 <;> rcases hd' with h2 | h2 | h2 <;>
    rw [h1, h2, hdet] <;> rfl

theorem resNetBase_construct_detection (cfg : Cfg) (ha : cfg.arch ∈ singleArchKeys)
    (hd : cfg.depth ∈ depthKeys) (hdet : cfg.detectionEnable = true) :
    ResNetBase.construct cfg = .error .notImplementedError := by
  have ha' : cfg.arch = "c2d" ∨ cfg.arch = "c2d_nopool" ∨ cfg.arch = "i3d" ∨
      cfg.arch = "r3d_18" ∨ cfg.arch = "i3d_nopool" ∨ cfg.arch = "slow" := by
    simpa [singleArchKeys] using ha
  have hd' : cfg.depth = 18 ∨ cfg.depth = 50 ∨ cfg.depth = 101 := by
    simpa [depthKeys] using hd
  unfold ResNetBase.construct
  rcases ha' with h1 | h1 | h1 | h1 | h1 | h1 <;> rcases hd' with h2 | h2 | h2 <;>
    rw [h1, h2, hdet] <;> rfl

theorem resNetFreeze_construct_detection (cfg : Cfg) (ha : cfg.arch ∈ singleArchKeys)
    (hd : cfg.depth ∈ depthKeys) (hdet : cfg.detectionEnable = true) :
    ResNetFreeze.construct cfg = .error .notImplementedError := by
  have ha' : cfg.arch = "c2d" ∨ cfg.arch = "c2d_nopool" ∨ cfg.arch = "i3d" ∨
      cfg.arch = "r3d_18" ∨ cfg.arch = "i3d_nopool" ∨ cfg.arch = "slow" := by
    simpa [singleArchKeys] using ha
  have hd' : cfg.depth = 18 ∨ cfg.depth = 50 ∨ cfg.depth = 101 := by
    simpa [depthKeys] using hd
  unfold ResNetFreeze.construct
  rcases ha' with h1 | h1 | h1 | h1 | h1 | h1 <;> rcases hd' with h2 | h2 | h2 <;>
    rw [h1, h2, hdet] <;> rfl

theorem resUNet_construct_proceeds (cfg : Cfg) (ha : cfg.arch ∈ singleArchKeys)
    (hd : cfg.depth ∈ depthKeys) (hc : cfg.trainCropSize = cfg.testCropSize) :
    isOkB (ResUNet.construct cfg) = true := by
  have ha' : cfg.arch = "c2d" ∨ cfg.arch = "c2d_nopool" ∨ cfg.arch = "i3d" ∨
      cfg.arch = "r3d_18" ∨ cfg.arch = "i3d_nopool" ∨ cfg.arch = "slow" := by
    simpa [singleArchKeys] using ha
  have hd' : cfg.depth = 18 ∨ cfg.depth = 50 ∨ cfg.depth = 101 := by
    simpa [depthKeys] using hd
  unfold ResUNet.construct
  rw [if_pos hc]
  rcases ha' with h1 | h1 | h1 | h1 | h1 | h1 <;> rcases hd' with h2 | h2 | h2 <;>
    rw [h1, h2] <;> rfl

theorem resUNetLight_construct_proceeds (cfg : Cfg) (ha : cfg.arch ∈ singleArchKeys)
    (hd : cfg.depth ∈ depthKeys) (hc : cfg.trainCropSize = cfg.testCropSize) :
    isOkB (ResUNetLight.construct cfg) = true := by
  have ha' : cfg.arch = "c2d" ∨ cfg.arch = "c2d_nopool" ∨ cfg.arch = "i3d" ∨
      cfg.arch = "r3d_18" ∨ cfg.arch = "i3d_nopool" ∨ cfg.arch = "slow" := by
    simpa [singleArchKeys] using ha
  have hd' : cfg.depth = 18 ∨ cfg.depth = 50 ∨ cfg.depth = 101 := by
    simpa [depthKeys] using hd
  unfold ResUNetLight.construct
  rw [if_pos hc]
  rcases ha' with h1 | h1 | h1 | h1 | h1 | h1 <;> rcases hd' with h2 | h2 | h2 <;>
    rw [h1, h2] <;> rfl

theorem resUNetLightFix_construct_proceeds (cfg : Cfg) (ha : cfg.arch ∈ singleArchKeys)
    (hd : cfg.depth ∈ depthKeys) (hc : cfg.trainCropSize = cfg.testCropSize) :
    isOkB (ResUNetLightFix.construct cfg) = true := by
  have ha' : cfg.arch = "c2d" ∨ cfg.arch = "c2d_nopool" ∨ cfg.arch = "i3d" ∨
      cfg.arch = "r3d_18" ∨ cfg.arch = "i3d_nopool" ∨ cfg.arch = "slow" := by
    simpa [singleArchKeys] using ha
  have hd' : cfg.depth = 18 ∨ cfg.depth = 50 ∨ cfg.depth = 101 := by
    simpa [depthKeys] using hd
  unfold ResUNetLightFix.construct
  rw [if_pos hc]
  rcases ha' with h1 | h1 | h1 | h1 | h1 | h1 <;> rcases hd' with h2 | h2 | h2 <;>
    rw [h1, h2] <;> rfl

theorem resUNetContinus_construct_proceeds (cfg : Cfg) (ha : cfg.arch ∈ singleArchKeys)
    (hd : cfg.depth ∈ depthKeys) (hc : cfg.trainCropSize = cfg.testCropSize) :
    isOkB (ResUNetContinus.construct cfg) = true := by
  have ha' : cfg.arch = "c2d" ∨ cfg.arch = "c2d_nopool" ∨ cfg.arch = "i3d" ∨
      cfg.arch = "r3d_18" ∨ cfg.arch = "i3d_nopool" ∨ cfg.arch = "slow" := by
    simpa [singleArchKeys] using ha
  have hd' : cfg.depth = 18 ∨ cfg.depth = 50 ∨ cfg.depth = 101 := by
    simpa [depthKeys] using hd
  unfold ResUNetContinus.construct
  rw [if_pos hc]
  rcases ha' with h1 | h1 | h1 | h1 | h1 | h1 <;> rcases hd' with h2 | h2 | h2 <;>
    rw [h1, h2] <;> rfl

theorem resUNetCommon_construct_proceeds (cfg : Cfg) (ha : cfg.arch ∈ singleArchKeys)
    (hd : cfg.depth ∈ depthKeys) (hc : cfg.trainCropSize = cfg.testCropSize) :
    isOkB (ResUNetCommon.construct cfg) = true := by
  have ha' : cfg.arch = "c2d" ∨ cfg.arch = "c2d_nopool" ∨ cfg.arch = "i3d" ∨
      cfg.arch = "r3d_18" ∨ cfg.arch = "i3d_nopool" ∨ cfg.arch = "slow" := by
    simpa [singleArchKeys] using ha
  have hd' : cfg.depth = 18 ∨ cfg.depth = 50 ∨ cfg.depth = 101 := by
    simpa [depthKeys] using hd
  unfold ResUNetCommon.construct
  rw [if_pos hc]
  rcases ha' with h1 | h1 | h1 | h1 | h1 | h1 <;> rcases hd' with h2 | h2 | h2 <;>
    rw [h1, h2] <;> rfl

theorem resUNetCommon2_construct_proceeds (cfg : Cfg) (ha : cfg.arch ∈ singleArchKeys)
    (hd : cfg.depth ∈ depthKeys) (hc : cfg.trainCropSize = cfg.testCropSize) :
    isOkB (ResUNetCommon2.construct cfg) = true := by
  have ha' : cfg.arch = "c2d" ∨ cfg.arch = "c2d_nopool" ∨ cfg.arch = "i3d" ∨
      cfg.arch = "r3d_18" ∨ cfg.arch = "i3d_nopool" ∨ cfg.arch = "slow" := by
    simpa [singleArchKeys] using ha
  have hd' : cfg.depth = 18 ∨ cfg.depth = 50 ∨ cfg.depth = 101 := by
    simpa [depthKeys] using hd
  unfold ResUNetCommon2.construct
  rw [if_pos hc]
  rcases ha' with h1 | h1 | h1 | h1 | h1 | h1 <;> rcases hd' with h2 | h2 | h2 <;>
    rw [h1, h2] <;> rfl

theorem resUNetStrong_construct_proceeds (cfg : Cfg) (ha : cfg.arch ∈ singleArchKeys)
    (hd : cfg.depth ∈ depthKeys) (hc : cfg.trainCropSize = cfg.testCropSize) :
    isOkB (ResUNetStrong.construct cfg) = true := by
  have ha' : cfg.arch = "c2d" ∨ cfg.arch = "c2d_nopool" ∨ cfg.arch = "i3d" ∨
      cfg.arch = "r3d_18" ∨ cfg.arch = "i3d_nopool" ∨ cfg.arch = "slow" := by
    simpa [singleArchKeys] using ha
  have hd' : cfg.depth = 18 ∨ cfg.depth = 50 ∨ cfg.depth = 101 := by
    simpa [depthKeys] using hd
  unfold ResUNetStrong.construct
  rw [if_pos hc]
  rcases ha' with h1 | h1 | h1 | h1 | h1 | h1 <;> rcases hd' with h2 | h2 | h2 <;>
    rw [h1, h2] <;> rfl

/-- C1 (amended): with detection enabled and an otherwise valid configuration,
construction of SlowFast, ResNet, ResNetVar, ResNetBase and ResNetFreeze
fails deterministically with NotImplementedError; the seven ResUNet-family
classes never check the detection flag, and their construction proceeds. -/
theorem claim_C1_detection_amended (cfg : Cfg) (hdet : cfg.detectionEnable = true) :
    (cfg.arch = "slowfast" → cfg.depth ∈ depthKeys →
      SlowFast.construct cfg = .error .notImplementedError) ∧
    (cfg.arch ∈ singleArchKeys → cfg.depth ∈ depthKeys →
      ResNet.construct cfg = .error .notImplementedError ∧
      ResNetVar.construct cfg = .error .notImplementedError ∧
      ResNetBase.construct cfg = .error .notImplementedError ∧
      ResNetFreeze.construct cfg = .error .notImplementedError) ∧
    (cfg.arch ∈ singleArchKeys → cfg.depth ∈ depthKeys →
      cfg.trainCropSize = cfg.testCropSize →
      isOkB (ResUNet.construct cfg) = true ∧
      isOkB (ResUNetLight.construct cfg) = true ∧
      isOkB (ResUNetLightFix.construct cfg) = true ∧
      isOkB (ResUNetContinus.construct cfg) = true ∧
      isOkB (ResUNetCommon.construct cfg) = true ∧
      isOkB (ResUNetCommon2.construct cfg) = true ∧
      isOkB (ResUNetStrong.construct cfg) = true) :=
  ⟨fun ha hd => slowFast_construct_detection cfg ha hd hdet,
   fun ha hd =>
     ⟨resNet_construct_detection cfg ha hd hdet,
      resNetVar_construct_detection cfg ha hd hdet,
      resNetBase_construct_detection cfg ha hd hdet,
      resNetFreeze_construct_detection cfg ha hd hdet⟩,
   fun ha hd hc =>
     ⟨resUNet_construct_proceeds cfg ha hd hc,
      resUNetLight_construct_proceeds cfg ha hd hc,
      resUNetLightFix_construct_proceeds cfg ha hd hc,
      resUNetContinus_construct_proceeds cfg ha hd hc,
      resUNetCommon_construct_proceeds cfg ha hd hc,
      resUNetCommon2_construct_proceeds cfg ha hd hc,
      resUNetStrong_construct_proceeds cfg ha hd hc⟩⟩

/-- C1 counterexample: a valid single-pathway configuration with the
detection flag enabled constructs a ResUNet without any error, so detection-
enabled construction does not fail for every registered class. -/
theorem claim_C1_detection_counterexample :
    cfgRUDet.detectionEnable = true ∧
    isOkB (ResUNet.construct cfgRUDet) = true ∧
    ResUNet.construct cfgRUDet ≠ .error .notImplementedError := by
  refine ⟨rfl, rfl, ?_⟩
  intro h
  exact absurd (congrArg isOkB h) (by decide)

/-- C1 witness: SlowFast with detection enabled fails with
NotImplementedError, while ResUNet with detection enabled constructs. -/
theorem claim_C1_detection_amended_witness :
    SlowFast.construct cfgSlowFastDet = .error .notImplementedError ∧
    isOkB (ResUNet.construct cfgRUDet) = true := by
  constructor
  · exact (claim_C1_detection_amended cfgSlowFastDet rfl).1 rfl (by decide)
  · exact ((claim_C1_detection_amended cfgRUDet rfl).2.2 (by decide) (by decide) rfl).1

/-- C3: FuseFastToSlow built for a fast pathway of dim_in channels applies to
the fast tensor a convolution with temporal stride alpha producing
dim_in * fusion_conv_channel_ratio channels, then the norm module and the
ReLU, concatenates the result onto the slow tensor along the channel axis,
and returns [fused-slow, fast] with the fast input unchanged. -/
theorem claim_C3_fuse_fast_to_slow (τ : Type) [Inhabited τ] (ops : TorchOps τ)
    (dim_in ratio k a : Nat) (convV bnV reluV : VT τ → τ) (s f : Tensor τ)
    (sb sc st sh sw : Nat)
    (hs : s.vt.dims = [sb, sc, st, sh, sw])
    (hf : dimAt f.vt.dims 1 = dim_in) :
    (FuseFastToSlow.init dim_in ratio k a convV bnV reluV
        (τ := τ)).conv_f2s.sT = a ∧
    (FuseFastToSlow.init dim_in ratio k a convV bnV reluV
        (τ := τ)).conv_f2s.outC = dimAt f.vt.dims 1 * ratio ∧
    FuseFastToSlow.forward ops (FuseFastToSlow.init dim_in ratio k a convV bnV reluV)
        [s, f] =
      [catT ops s
        (liftL (FuseFastToSlow.init dim_in ratio k a convV bnV reluV
            (τ := τ)).relu.apply
          (liftL (FuseFastToSlow.init dim_in ratio k a convV bnV reluV
              (τ := τ)).bn.apply
            (liftL (FuseFastToSlow.init dim_in ratio k a convV bnV reluV
                (τ := τ)).conv_f2s.apply f))), f] ∧
    dimAt ((FuseFastToSlow.forward ops
        (FuseFastToSlow.init dim_in ratio k a convV bnV reluV) [s, f]).getD 0
          default).vt.dims 1 = sc + dimAt f.vt.dims 1 * ratio ∧
    (FuseFastToSlow.forward ops
        (FuseFastToSlow.init dim_in ratio k a convV bnV reluV) [s, f]).getD 1
          default = f := by
  subst hf
  refine ⟨rfl, rfl, rfl, ?_, rfl⟩
  simp [FuseFastToSlow.forward, FuseFastToSlow.init, catT, catVT, liftL,
    Conv3dM.apply, Conv3dM.dimsOut, NormM.apply, ActM.apply, hs, dimAt]

/-- C3 witness: a concrete slow tensor of 64 channels and fast tensor of 8
channels fused with ratio 2, kernel 5, alpha 4. -/
theorem claim_C3_fuse_fast_to_slow_witness :
    dimAt ((FuseFastToSlow.forward opsU
        (FuseFastToSlow.init 8 2 5 4 (fun _ => ()) (fun _ => ()) (fun _ => ()))
        [⟨⟨[1, 64, 8, 56, 56], ()⟩, false⟩, ⟨⟨[1, 8, 32, 56, 56], ()⟩, false⟩]).getD 0
          default).vt.dims 1 = 64 + 8 * 2 ∧
    (FuseFastToSlow.forward opsU
        (FuseFastToSlow.init 8 2 5 4 (fun _ => ()) (fun _ => ()) (fun _ => ()))
        [⟨⟨[1, 64, 8, 56, 56], ()⟩, false⟩, ⟨⟨[1, 8, 32, 56, 56], ()⟩, false⟩]).getD 1
          default = ⟨⟨[1, 8, 32, 56, 56], ()⟩, false⟩ :=
  have h := claim_C3_fuse_fast_to_slow Unit opsU 8 2 5 4
    (fun _ => ()) (fun _ => ()) (fun _ => ())
    ⟨⟨[1, 64, 8, 56, 56], ()⟩, false⟩ ⟨⟨[1, 8, 32, 56, 56], ()⟩, false⟩
    1 64 8 56 56 rfl rfl
  ⟨h.2.2.2.1, h.2.2.2.2⟩

theorem stageApp_length (s : Nat → VT τ → VT τ) (xs : List (Tensor τ)) :
    (stageApp s xs).length = xs.length := by
  simp [stageApp]

theorem poolLoop_length [Inhabited τ] (pools : Nat → VT τ → VT τ) (n : Nat)
    (xs : List (Tensor τ)) : (poolLoop pools n xs).length = xs.length := by
  unfold poolLoop
  generalize List.range n = l
  induction l generalizing xs with
  | nil => rfl
  | cons i l ih =>
    simp only [List.foldl]
    rw [ih, List.length_set]

/-- C5: throughout a forward pass, every intermediate pathway list (after the
stem, after each residual stage, after each fusion, and after per-pathway
pooling) has length equal to the declared pathway count: 2 for SlowFast and 1
for the single-pathway classes, on inputs with one tensor per pathway. -/
theorem claim_C5_pathway_lengths (τ : Type) [Inhabited τ] (ops : TorchOps τ) :
    (∀ (m : SlowFastM τ) (x₀ x₁ : Tensor τ),
      (SlowFast.backboneTrace ops m [x₀, x₁]).all (fun ys => ys.length == 2) = true) ∧
    (∀ (m : ResNetM τ) (x₀ : Tensor τ),
      (ResNet.backboneTrace m [x₀]).all (fun ys => ys.length == 1) = true) ∧
    (∀ (m : ResNetM τ) (x₀ : Tensor τ),
      (ResNetVar.backboneTrace m [x₀]).all (fun ys => ys.length == 1) = true) ∧
    (∀ (m : ResNetM τ) (x₀ : Tensor τ),
      (ResNetBase.backboneTrace m [x₀]).all (fun ys => ys.length == 1) = true) ∧
    (∀ (m : ResNetFreezeM τ) (x₀ : Tensor τ),
      (ResNetFreeze.backboneTrace m [x₀]).all (fun ys => ys.length == 1) = true) ∧
    (∀ (m : ResUNetM τ) (x₀ : Tensor τ),
      (ResUNet.backboneTrace m [x₀]).all (fun ys => ys.length == 1) = true) ∧
    (∀ (m : ResUNetM τ) (x₀ : Tensor τ),
      (ResUNetLight.backboneTrace m [x₀]).all (fun ys => ys.length == 1) = true) ∧
    (∀ (m : UNetFixM τ) (x₀ : Tensor τ),
      (ResUNetLightFix.backboneTrace m [x₀]).all (fun ys => ys.length == 1) = true) ∧
    (∀ (m : UNetFixM τ) (x₀ : Tensor τ),
      (ResUNetContinus.backboneTrace m [x₀]).all (fun ys => ys.length == 1) = true) ∧
    (∀ (m : UNetFixM τ) (x₀ : Tensor τ),
      (ResUNetCommon.backboneTrace m [x₀]).all (fun ys => ys.length == 1) = true) ∧
    (∀ (m : UNetFixM τ) (x₀ : Tensor τ),
      (ResUNetCommon2.backboneTrace m [x₀]).all (fun ys => ys.length == 1) = true) ∧
    (∀ (m : UNetFixM τ) (x₀ : Tensor τ),
      (ResUNetStrong.backboneTrace m [x₀]).all (fun ys => ys.length == 1) = true) := by
  refine ⟨?_, ?_, ?_, ?_, ?_, ?_, ?_, ?_, ?_, ?_, ?_, ?_⟩ <;> intro m x <;>
    first
    | (intro x₁
       simp [SlowFast.backboneTrace, List.all, FuseFastToSlow.forward,
         stageApp_length, poolLoop_length])
    | simp [ResNet.backboneTrace, ResNetVar.backboneTrace, ResNetBase.backboneTrace,
        ResNetFreeze.backboneTrace, ResUNet.backboneTrace, ResUNetLight.backboneTrace,
        ResUNetLightFix.backboneTrace, ResUNetContinus.backboneTrace,
        ResUNetCommon.backboneTrace, ResUNetCommon2.backboneTrace,
        ResUNetStrong.backboneTrace, List.all, getDetachVar,
        stageApp_length, poolLoop_length]

/-- C6: every registered class's forward, with fixed weights (the same module
record) and the framework layers modelled as fixed pure functions (randomness
disabled), is deterministic: equal inputs give equal outputs. -/
theorem claim_C6_determinism (τ : Type) [Inhabited τ] (ops : TorchOps τ)
    (gs : PSpGlobals) :
    (∀ (m : SlowFastM τ) (x y : List (Tensor τ)) (bb : Option (VT τ)), x = y →
      SlowFast.forward ops m gs x bb = SlowFast.forward ops m gs y bb) ∧
    (∀ (m : ResNetM τ) (x y : List (Tensor τ)) (bb : Option (VT τ)), x = y →
      ResNet.forward ops m gs x bb = ResNet.forward ops m gs y bb) ∧
    (∀ (m : ResNetM τ) (x y : List (Tensor τ)) (bb : Option (VT τ)), x = y →
      ResNetVar.forward ops m gs x bb = ResNetVar.forward ops m gs y bb) ∧
    (∀ (m : ResNetM τ) (x y : List (Tensor τ)) (bb : Option (VT τ)), x = y →
      ResNetBase.forward ops m gs x bb = ResNetBase.forward ops m gs y bb) ∧
    (∀ (m : ResNetFreezeM τ) (x y : List (Tensor τ)) (fb : Bool), x = y →
      ResNetFreeze.forward m gs x fb = ResNetFreeze.forward m gs y fb) ∧
    (∀ (m : ResUNetM τ) (x y : List (Tensor τ)) (bb : Option (VT τ)), x = y →
      ResUNet.forward ops m gs x bb = ResUNet.forward ops m gs y bb) ∧
    (∀ (m : ResUNetM τ) (x y : List (Tensor τ)) (fb : Bool), x = y →
      ResUNetLight.forward ops m gs x fb = ResUNetLight.forward ops m gs y fb) ∧
    (∀ (m : UNetFixM τ) (x y : List (Tensor τ)) (fb : Bool), x = y →
      ResUNetLightFix.forward ops m gs x fb = ResUNetLightFix.forward ops m gs y fb) ∧
    (∀ (m : UNetFixM τ) (x y : List (Tensor τ)) (fb : Bool), x = y →
      ResUNetContinus.forward ops m gs x fb = ResUNetContinus.forward ops m gs y fb) ∧
    (∀ (m : UNetFixM τ) (x y : List (Tensor τ)) (fb : Bool), x = y →
      ResUNetCommon.forward ops m gs x fb = ResUNetCommon.forward ops m gs y fb) ∧
    (∀ (m : UNetFixM τ) (x y : List (Tensor τ)) (fb : Bool), x = y →
      ResUNetCommon2.forward ops m gs x fb = ResUNetCommon2.forward ops m gs y fb) ∧
    (∀ (m : UNetFixM τ) (x y : List (Tensor τ)) (fb : Bool), x = y →
      ResUNetStrong.forward ops m gs x fb = ResUNetStrong.forward ops m gs y fb) := by
  refine ⟨?_, ?_, ?_, ?_, ?_, ?_, ?_, ?_, ?_, ?_, ?_, ?_⟩ <;>
    (intro m x y a h; subst h; rfl)

/-- C6 witness: two SlowFast forward passes on the same concrete input agree. -/
theorem claim_C6_determinism_witness :
    SlowFast.forward opsU mSFU pspU [tU, tU] none =
      SlowFast.forward opsU mSFU pspU [tU, tU] none :=
  (claim_C6_determinism Unit opsU pspU).1 mSFU [tU, tU] [tU, tU] none rfl

/-- C8: the result of every registered class's forward is independent of the
module-level pSp experiment state (pretrained encoder, transform pipeline,
run_on_batch): two runs differing only in that global state return equal
outputs, as no forward method reads it. -/
theorem claim_C8_psp_independence (τ : Type) [Inhabited τ] (ops : TorchOps τ)
    (g₁ g₂ : PSpGlobals) :
    (∀ (m : SlowFastM τ) (x : List (Tensor τ)) (bb : Option (VT τ)),
      SlowFast.forward ops m g₁ x bb = SlowFast.forward ops m g₂ x bb) ∧
    (∀ (m : ResNetM τ) (x : List (Tensor τ)) (bb : Option (VT τ)),
      ResNet.forward ops m g₁ x bb = ResNet.forward ops m g₂ x bb) ∧
    (∀ (m : ResNetM τ) (x : List (Tensor τ)) (bb : Option (VT τ)),
      ResNetVar.forward ops m g₁ x bb = ResNetVar.forward ops m g₂ x bb) ∧
    (∀ (m : ResNetM τ) (x : List (Tensor τ)) (bb : Option (VT τ)),
      ResNetBase.forward ops m g₁ x bb = ResNetBase.forward ops m g₂ x bb) ∧
    (∀ (m : ResNetFreezeM τ) (x : List (Tensor τ)) (fb : Bool),
      ResNetFreeze.forward m g₁ x fb = ResNetFreeze.forward m g₂ x fb) ∧
    (∀ (m : ResUNetM τ) (x : List (Tensor τ)) (bb : Option (VT τ)),
      ResUNet.forward ops m g₁ x bb = ResUNet.forward ops m g₂ x bb) ∧
    (∀ (m : ResUNetM τ) (x : List (Tensor τ)) (fb : Bool),
      ResUNetLight.forward ops m g₁ x fb = ResUNetLight.forward ops m g₂ x fb) ∧
    (∀ (m : UNetFixM τ) (x : List (Tensor τ)) (fb : Bool),
      ResUNetLightFix.forward ops m g₁ x fb = ResUNetLightFix.forward ops m g₂ x fb) ∧
    (∀ (m : UNetFixM τ) (x : List (Tensor τ)) (fb : Bool),
      ResUNetContinus.forward ops m g₁ x fb = ResUNetContinus.forward ops m g₂ x fb) ∧
    (∀ (m : UNetFixM τ) (x : List (Tensor τ)) (fb : Bool),
      ResUNetCommon.forward ops m g₁ x fb = ResUNetCommon.forward ops m g₂ x fb) ∧
    (∀ (m : UNetFixM τ) (x : List (Tensor τ)) (fb : Bool),
      ResUNetCommon2.forward ops m g₁ x fb = ResUNetCommon2.forward ops m g₂ x fb) ∧
    (∀ (m : UNetFixM τ) (x : List (Tensor τ)) (fb : Bool),
      ResUNetStrong.forward ops m g₁ x fb = ResUNetStrong.forward ops m g₂ x fb) := by
  refine ⟨?_, ?_, ?_, ?_, ?_, ?_, ?_, ?_, ?_, ?_, ?_, ?_⟩ <;> (intro m x a; rfl)

/-- C9: the per-pathway max-pool module registered at construction time is
never invoked by the forwards of ResNetFreeze and the ResUNet family (its
pooling loop is absent or commented out), so the forward output is
independent of that module; s3 is applied directly to s2's output. -/
theorem claim_C9_pool_unused (τ : Type) [Inhabited τ] (ops : TorchOps τ)
    (gs : PSpGlobals) (p q : Nat → VT τ → VT τ) :
    (∀ (m : ResNetFreezeM τ) (x : List (Tensor τ)) (fb : Bool),
      ResNetFreeze.forward { m with pathwayPool := p } gs x fb =
        ResNetFreeze.forward { m with pathwayPool := q } gs x fb) ∧
    (∀ (m : ResUNetM τ) (x : List (Tensor τ)) (bb : Option (VT τ)),
      ResUNet.forward ops { m with pathwayPool := p } gs x bb =
        ResUNet.forward ops { m with pathwayPool := q } gs x bb) ∧
    (∀ (m : ResUNetM τ) (x : List (Tensor τ)) (fb : Bool),
      ResUNetLight.forward ops { m with pathwayPool := p } gs x fb =
        ResUNetLight.forward ops { m with pathwayPool := q } gs x fb) ∧
    (∀ (m : UNetFixM τ) (x : List (Tensor τ)) (fb : Bool),
      ResUNetLightFix.forward ops { m with pathwayPool := p } gs x fb =
        ResUNetLightFix.forward ops { m with pathwayPool := q } gs x fb) ∧
    (∀ (m : UNetFixM τ) (x : List (Tensor τ)) (fb : Bool),
      ResUNetContinus.forward ops { m with pathwayPool := p } gs x fb =
        ResUNetContinus.forward ops { m with pathwayPool := q } gs x fb) ∧
    (∀ (m : UNetFixM τ) (x : List (Tensor τ)) (fb : Bool),
      ResUNetCommon.forward ops { m with pathwayPool := p } gs x fb =
        ResUNetCommon.forward ops { m with pathwayPool := q } gs x fb) ∧
    (∀ (m : UNetFixM τ) (x : List (Tensor τ)) (fb : Bool),
      ResUNetCommon2.forward ops { m with pathwayPool := p } gs x fb =
        ResUNetCommon2.forward ops { m with pathwayPool := q } gs x fb) ∧
    (∀ (m : UNetFixM τ) (x : List (Tensor τ)) (fb : Bool),
      ResUNetStrong.forward ops { m with pathwayPool := p } gs x fb =
        ResUNetStrong.forward ops { m with pathwayPool := q } gs x fb) := by
  refine ⟨?_, ?_, ?_, ?_, ?_, ?_, ?_, ?_⟩ <;> (intro m x a; rfl)

theorem catTList_foldl_vt (ops : TorchOps τ) (f g : String → Tensor τ)
    (h : ∀ l, (f l).vt = (g l).vt) :
    ∀ (ls : List String) (a b : Tensor τ), a.vt = b.vt →
      ((ls.map f).foldl (fun p q => catT ops p q) a).vt =
      ((ls.map g).foldl (fun p q => catT ops p q) b).vt := by
  intro ls
  induction ls with
  | nil => intro a b hab; simpa using hab
  | cons l ls ih =>
    intro a b hab
    simp only [List.map, List.foldl]
    exact ih _ _ (by simp [catT, catVT, hab, h l])

theorem catTList_map_vt [Inhabited τ] (ops : TorchOps τ) (f g : String → Tensor τ)
    (h : ∀ l, (f l).vt = (g l).vt) (ls : List String) :
    (catTList ops (ls.map f)).vt = (catTList ops (ls.map g)).vt := by
  cases ls with
  | nil => rfl
  | cons l ls => exact catTList_foldl_vt ops f g h ls (f l) (g l) (h l)

theorem sigmoidT_vt_congr (ops : TorchOps τ) (X Y : Tensor τ) (h : X.vt = Y.vt) :
    (sigmoidT ops X).vt = (sigmoidT ops Y).vt := by
  simp [sigmoidT, h]

theorem unet_out_vt_congr (ops : TorchOps τ) (L : LinearM τ) (X Y : Tensor τ)
    (h : X.vt = Y.vt) :
    (viewB (dimAt X.vt.dims 0)
        (sigmoidT ops (linearT L (mulScalarT ops 100 (viewN1 (meanT34 ops X)))))).vt =
    (viewB (dimAt Y.vt.dims 0)
        (sigmoidT ops (linearT L (mulScalarT ops 100 (viewN1 (meanT34 ops Y)))))).vt := by
  simp [viewB, sigmoidT, linearT, mulScalarT, viewN1, meanT34, LinearM.apply, h]

theorem unetfix_out_vt_congr (ops : TorchOps τ) (L : LinearM τ) (X Y : Tensor τ)
    (h : X.vt = Y.vt) :
    (sigmoidT ops (viewB (dimAt (sigmoidT ops X).vt.dims 0)
        (linearT L (mulScalarT ops 100 (viewN1 (meanT34 ops (sigmoidT ops X))))))).vt =
    (sigmoidT ops (viewB (dimAt (sigmoidT ops Y).vt.dims 0)
        (linearT L (mulScalarT ops 100 (viewN1 (meanT34 ops (sigmoidT ops Y))))))).vt := by
  simp [viewB, sigmoidT, linearT, mulScalarT, viewN1, meanT34, LinearM.apply, h]

theorem common_out_vt_congr (ops : TorchOps τ) (L : LinearM τ) (n : Nat)
    (X Y : Tensor τ) (h : X.vt = Y.vt) :
    (viewBL (dimAt (sigmoidT ops X).vt.dims 0) n
        (linearT L (mulScalarT ops 100 (viewN1 (meanT34 ops (sigmoidT ops X)))))).vt =
    (viewBL (dimAt (sigmoidT ops Y).vt.dims 0) n
        (linearT L (mulScalarT ops 100 (viewN1 (meanT34 ops (sigmoidT ops Y)))))).vt := by
  simp [viewBL, sigmoidT, linearT, mulScalarT, viewN1, meanT34, LinearM.apply, h]

theorem common2_out_vt_congr (ops : TorchOps τ) (L : LinearM τ) (n : Nat)
    (X Y : Tensor τ) (h : X.vt = Y.vt) :
    (sigmoidT ops (viewBL (dimAt (sigmoidT ops X).vt.dims 0) n
        (linearT L (mulScalarT ops 100 (viewN1 (meanT34 ops (sigmoidT ops X))))))).vt =
    (sigmoidT ops (viewBL (dimAt (sigmoidT ops Y).vt.dims 0) n
        (linearT L (mulScalarT ops 100 (viewN1 (meanT34 ops (sigmoidT ops Y))))))).vt := by
  simp [viewBL, sigmoidT, linearT, mulScalarT, viewN1, meanT34, LinearM.apply, h]

/-- C10: for ResNetFreeze and the ResUNet-family classes whose forward takes
the freeze_backbone flag, calling forward with freeze_backbone=True yields
outputs with the same shapes and values as freeze_backbone=False on the same
input and weights: the flag only detaches features from gradient tracking. -/
theorem claim_C10_freeze_values (τ : Type) [Inhabited τ] (ops : TorchOps τ)
    (gs : PSpGlobals) :
    (∀ (m : ResNetFreezeM τ) (x₀ : Tensor τ),
      (ResNetFreeze.forward m gs [x₀] true).vt =
        (ResNetFreeze.forward m gs [x₀] false).vt) ∧
    (∀ (m : ResUNetM τ) (x₀ : Tensor τ),
      (ResUNetLight.forward ops m gs [x₀] true).1.vt =
        (ResUNetLight.forward ops m gs [x₀] false).1.vt ∧
      (ResUNetLight.forward ops m gs [x₀] true).2.vt =
        (ResUNetLight.forward ops m gs [x₀] false).2.vt) ∧
    (∀ (m : UNetFixM τ) (x₀ : Tensor τ),
      (ResUNetLightFix.forward ops m gs [x₀] true).1.vt =
        (ResUNetLightFix.forward ops m gs [x₀] false).1.vt ∧
      (ResUNetLightFix.forward ops m gs [x₀] true).2.vt =
        (ResUNetLightFix.forward ops m gs [x₀] false).2.vt) ∧
    (∀ (m : UNetFixM τ) (x₀ : Tensor τ),
      (ResUNetContinus.forward ops m gs [x₀] true).1.vt =
        (ResUNetContinus.forward ops m gs [x₀] false).1.vt ∧
      (ResUNetContinus.forward ops m gs [x₀] true).2.vt =
        (ResUNetContinus.forward ops m gs [x₀] false).2.vt) ∧
    (∀ (m : UNetFixM τ) (x₀ : Tensor τ),
      (ResUNetCommon.forward ops m gs [x₀] true).1.vt =
        (ResUNetCommon.forward ops m gs [x₀] false).1.vt ∧
      (ResUNetCommon.forward ops m gs [x₀] true).2.vt =
        (ResUNetCommon.forward ops m gs [x₀] false).2.vt) ∧
    (∀ (m : UNetFixM τ) (x₀ : Tensor τ),
      (ResUNetCommon2.forward ops m gs [x₀] true).1.vt =
        (ResUNetCommon2.forward ops m gs [x₀] false).1.vt ∧
      (ResUNetCommon2.forward ops m gs [x₀] true).2.vt =
        (ResUNetCommon2.forward ops m gs [x₀] false).2.vt) ∧
    (∀ (m : UNetFixM τ) (x₀ : Tensor τ),
      (ResUNetStrong.forward ops m gs [x₀] true).1.vt =
        (ResUNetStrong.forward ops m gs [x₀] false).1.vt ∧
      (ResUNetStrong.forward ops m gs [x₀] true).2.vt =
        (ResUNetStrong.forward ops m gs [x₀] false).2.vt) := by
  refine ⟨?_, ?_, ?_, ?_, ?_, ?_, ?_⟩
  · intro m x₀
    rfl
  · intro m x₀
    constructor
    · refine catTList_map_vt ops _ _ ?_ m.labels
      intro l
      rfl
    · refine unet_out_vt_congr ops _ _ _ ?_
      refine catTList_map_vt ops _ _ ?_ m.labels
      intro l
      rfl
  · intro m x₀
    constructor
    · refine sigmoidT_vt_congr ops _ _ ?_
      refine catTList_map_vt ops _ _ ?_ m.labels
      intro l
      rfl
    · refine unetfix_out_vt_congr ops _ _ _ ?_
      refine catTList_map_vt ops _ _ ?_ m.labels
      intro l
      rfl
  · intro m x₀
    constructor
    · refine sigmoidT_vt_congr ops _ _ ?_
      refine catTList_map_vt ops _ _ ?_ m.labels
      intro l
      rfl
    · refine unetfix_out_vt_congr ops _ _ _ ?_
      refine catTList_map_vt ops _ _ ?_ m.labels
      intro l
      rfl
  · intro m x₀
    constructor
    · refine sigmoidT_vt_congr ops _ _ ?_
      refine catTList_map_vt ops _ _ ?_ m.labels
      intro l
      rfl
    · refine common_out_vt_congr ops _ _ _ _ ?_
      refine catTList_map_vt ops _ _ ?_ m.labels
      intro l
      rfl
  · intro m x₀
    constructor
    · refine sigmoidT_vt_congr ops _ _ ?_
      refine catTList_map_vt ops _ _ ?_ m.labels
      intro l
      rfl
    · refine common2_out_vt_congr ops _ _ _ _ ?_
      refine catTList_map_vt ops _ _ ?_ m.labels
      intro l
      rfl
  · intro m x₀
    constructor
    · refine sigmoidT_vt_congr ops _ _ ?_
      refine catTList_map_vt ops _ _ ?_ m.labels
      intro l
      rfl
    · refine common2_out_vt_congr ops _ _ _ _ ?_
      refine catTList_map_vt ops _ _ ?_ m.labels
      intro l
      rfl

theorem dimAt_set_one (d : List Nat) (v j : Nat) (h : j ≠ 1) :
    dimAt (d.set 1 v) j = dimAt d j := by
  unfold dimAt
  cases d with
  | nil => rfl
  | cons a t =>
    cases t with
    | nil => rfl
    | cons b t' =>
      match j, h with
      | 0, _ => rfl
      | (j + 2), _ => rfl

theorem catTList_foldl_dims (ops : TorchOps τ) (f : String → Tensor τ)
    (b t h w : Nat) (hf : ∀ l, (f l).vt.dims = [b, 1, t, h, w]) :
    ∀ (ls : List String) (a : Tensor τ) (k : Nat), a.vt.dims = [b, k, t, h, w] →
      ((ls.map f).foldl (fun p q => catT ops p q) a).vt.dims =
        [b, k + ls.length, t, h, w] := by
  intro ls
  induction ls with
  | nil => intro a k ha; simpa using ha
  | cons l ls ih =>
    intro a k ha
    simp only [List.map, List.foldl]
    have step : (catT ops a (f l)).vt.dims = [b, k + 1, t, h, w] := by
      simp [catT, catVT, ha, hf l, dimAt]
    rw [ih (catT ops a (f l)) (k + 1) step]
    have harith : k + 1 + ls.length = k + (ls.length + 1) := by omega
    rw [harith]
    rfl

/-- torch.cat along channels of one branch output per label: the channel
extent of the result is the number of labels. -/
theorem catTList_map_dims [Inhabited τ] (ops : TorchOps τ) (f : String → Tensor τ)
    (ls : List String) (b t h w : Nat)
    (hf : ∀ l, (f l).vt.dims = [b, 1, t, h, w]) (hne : ls ≠ []) :
    (catTList ops (ls.map f)).vt.dims = [b, ls.length, t, h, w] := by
  cases ls with
  | nil => exact absurd rfl hne
  | cons l ls =>
    show ((ls.map f).foldl (fun p q => catT ops p q) (f l)).vt.dims = _
    rw [catTList_foldl_dims ops f b t h w hf ls (f l) 1 (hf l)]
    simp [Nat.add_comm]

/-- Shape of the scalar head of ResUNet / ResUNetLight:
mean([3,4]).view(-1,1)*100, Linear+Sigmoid, view(x.size(0), -1) flattens the
label and time axes together into the second axis. -/
theorem unet_out_dims (ops : TorchOps τ) (L : LinearM τ) (X : Tensor τ)
    (b c t h w : Nat) (hX : X.vt.dims = [b, c, t, h, w]) (houtF : L.outF = 1)
    (hb : 0 < b) :
    (viewB (dimAt X.vt.dims 0)
        (sigmoidT ops (linearT L (mulScalarT ops 100 (viewN1 (meanT34 ops X)))))).vt.dims
      = [b, c * t] := by
  simp only [viewB, sigmoidT, linearT, mulScalarT, viewN1, meanT34, LinearM.apply,
    hX, houtF, dimAt, numel]
  simp only [List.getD, List.take, List.foldl, List.length, List.set]
  norm_num
  rw [mul_assoc, Nat.mul_div_cancel_left _ hb]

/-- Shape of the scalar head of ResUNetLightFix / ResUNetContinus (sigmoid
applied before the mean and after the view). -/
theorem unetfix_out_dims (ops : TorchOps τ) (L : LinearM τ) (X : Tensor τ)
    (b c t h w : Nat) (hX : X.vt.dims = [b, c, t, h, w]) (houtF : L.outF = 1)
    (hb : 0 < b) :
    (sigmoidT ops (viewB (dimAt (sigmoidT ops X).vt.dims 0)
        (linearT L (mulScalarT ops 100 (viewN1 (meanT34 ops (sigmoidT ops X))))))).vt.dims
      = [b, c * t] := by
  simp only [viewB, sigmoidT, linearT, mulScalarT, viewN1, meanT34, LinearM.apply,
    hX, houtF, dimAt, numel]
  simp only [List.getD, List.take, List.foldl, List.length, List.set]
  norm_num
  rw [mul_assoc, Nat.mul_div_cancel_left _ hb]

/-- Dense-output shape of ResUNet.forward on a single-pathway input: one
channel per declared label, remaining extents from the stem output (the
per-label head is a 1x1x1 convolution). -/
theorem resUNet_forward_dense_dims [Inhabited τ] (ops : TorchOps τ)
    (m : ResUNetM τ) (gs : PSpGlobals) (x₀ : Tensor τ) (bb : Option (VT τ))
    (hne : m.labels ≠ []) :
    (ResUNet.forward ops m gs [x₀] bb).1.vt.dims =
      [dimAt (m.s1 0 x₀.vt).dims 0, m.labels.length,
       convExtent (dimAt (m.s1 0 x₀.vt).dims 2) 1 1 0,
       convExtent (dimAt (m.s1 0 x₀.vt).dims 3) 1 1 0,
       convExtent (dimAt (m.s1 0 x₀.vt).dims 4) 1 1 0] := by
  refine catTList_map_dims ops _ m.labels _ _ _ _ ?_ hne
  intro l
  simp only [ResUNet.forwardBranch, sigmoidT, liftL, Conv3dM.apply, Conv3dM.dimsOut,
    ResUNetM.conv1x1, unetConcat, unetUpsample, catT, catVT, stageApp]
  simp [dimAt_set_one, List.getD]

/-- Dense-output shape of ResUNetLight.forward on a single-pathway input. -/
theorem resUNetLight_forward_dense_dims [Inhabited τ] (ops : TorchOps τ)
    (m : ResUNetM τ) (gs : PSpGlobals) (x₀ : Tensor τ) (fb : Bool)
    (hne : m.labels ≠ []) :
    (ResUNetLight.forward ops m gs [x₀] fb).1.vt.dims =
      [dimAt (m.s1 0 x₀.vt).dims 0, m.labels.length,
       convExtent (dimAt (m.s1 0 x₀.vt).dims 2) 1 1 0,
       convExtent (dimAt (m.s1 0 x₀.vt).dims 3) 1 1 0,
       convExtent (dimAt (m.s1 0 x₀.vt).dims 4) 1 1 0] := by
  refine catTList_map_dims ops _ m.labels _ _ _ _ ?_ hne
  intro l
  cases fb <;>
    (simp only [ResUNetLight.forwardBranch, sigmoidT, liftL, Conv3dM.apply,
       Conv3dM.dimsOut, ResUNetM.conv1x1, unetConcat, unetUpsample, catT, catVT,
       stageApp, getDetachVar, Tensor.detach]
     simp [dimAt_set_one, List.getD, Tensor.detach]
     try simp [dimAt])

/-- Dense-output shape of ResUNetLightFix.forward on a single-pathway input:
the per-label head is two chained 1x1x1 convolutions ending in one channel. -/
theorem resUNetLightFix_forward_dense_dims [Inhabited τ] (ops : TorchOps τ)
    (m : UNetFixM τ) (gs : PSpGlobals) (x₀ : Tensor τ) (fb : Bool)
    (hne : m.labels ≠ []) :
    (ResUNetLightFix.forward ops m gs [x₀] fb).1.vt.dims =
      [dimAt (m.s1 0 x₀.vt).dims 0, m.labels.length,
       convExtent (convExtent (dimAt (m.s1 0 x₀.vt).dims 2) 1 1 0) 1 1 0,
       convExtent (convExtent (dimAt (m.s1 0 x₀.vt).dims 3) 1 1 0) 1 1 0,
       convExtent (convExtent (dimAt (m.s1 0 x₀.vt).dims 4) 1 1 0) 1 1 0] := by
  refine catTList_map_dims ops _ m.labels _ _ _ _ ?_ hne
  intro l
  cases fb <;>
    (simp only [UNetFix.forwardBranch, UNetFixM.conv1x1Apply, NormM.apply, ActM.apply,
       sigmoidT, liftL, Conv3dM.apply, Conv3dM.dimsOut, unetConcat, unetUpsample,
       catT, catVT, stageApp, getDetachVar, Tensor.detach]
     simp [dimAt_set_one, List.getD, Tensor.detach]
     try simp [dimAt])

/-- Dense-output shape of ResUNetContinus.forward on a single-pathway input. -/
theorem resUNetContinus_forward_dense_dims [Inhabited τ] (ops : TorchOps τ)
    (m : UNetFixM τ) (gs : PSpGlobals) (x₀ : Tensor τ) (fb : Bool)
    (hne : m.labels ≠ []) :
    (ResUNetContinus.forward ops m gs [x₀] fb).1.vt.dims =
      [dimAt (m.s1 0 x₀.vt).dims 0, m.labels.length,
       convExtent (convExtent (dimAt (m.s1 0 x₀.vt).dims 2) 1 1 0) 1 1 0,
       convExtent (convExtent (dimAt (m.s1 0 x₀.vt).dims 3) 1 1 0) 1 1 0,
       convExtent (convExtent (dimAt (m.s1 0 x₀.vt).dims 4) 1 1 0) 1 1 0] := by
  refine catTList_map_dims ops _ m.labels _ _ _ _ ?_ hne
  intro l
  cases fb <;>
    (simp only [UNetFix.forwardBranch, UNetFixM.conv1x1Apply, NormM.apply, ActM.apply,
       sigmoidT, liftL, Conv3dM.apply, Conv3dM.dimsOut, unetConcat, unetUpsample,
       catT, catVT, stageApp, getDetachVar, Tensor.detach]
     simp [dimAt_set_one, List.getD, Tensor.detach]
     try simp [dimAt])

/-- Dense-output shape of ResUNetCommon.forward on a single-pathway input
(the forward detaches its input first, which leaves shapes unchanged). -/
theorem resUNetCommon_forward_dense_dims [Inhabited τ] (ops : TorchOps τ)
    (m : UNetFixM τ) (gs : PSpGlobals) (x₀ : Tensor τ) (fb : Bool)
    (hne : m.labels ≠ []) :
    (ResUNetCommon.forward ops m gs [x₀] fb).1.vt.dims =
      [dimAt (m.s1 0 x₀.vt).dims 0, m.labels.length,
       convExtent (convExtent (dimAt (m.s1 0 x₀.vt).dims 2) 1 1 0) 1 1 0,
       convExtent (convExtent (dimAt (m.s1 0 x₀.vt).dims 3) 1 1 0) 1 1 0,
       convExtent (convExtent (dimAt (m.s1 0 x₀.vt).dims 4) 1 1 0) 1 1 0] := by
  refine catTList_map_dims ops _ m.labels _ _ _ _ ?_ hne
  intro l
  cases fb <;>
    (simp only [UNetFix.forwardBranch, UNetFixM.conv1x1Apply, NormM.apply, ActM.apply,
       sigmoidT, liftL, Conv3dM.apply, Conv3dM.dimsOut, unetConcat, unetUpsample,
       catT, catVT, stageApp, getDetachVar, Tensor.detach]
     simp [dimAt_set_one, List.getD, Tensor.detach]
     try simp [dimAt])

/-- Dense-output shape of ResUNetCommon2.forward on a single-pathway input. -/
theorem resUNetCommon2_forward_dense_dims [Inhabited τ] (ops : TorchOps τ)
    (m : UNetFixM τ) (gs : PSpGlobals) (x₀ : Tensor τ) (fb : Bool)
    (hne : m.labels ≠ []) :
    (ResUNetCommon2.forward ops m gs [x₀] fb).1.vt.dims =
      [dimAt (m.s1 0 x₀.vt).dims 0, m.labels.length,
       convExtent (convExtent (dimAt (m.s1 0 x₀.vt).dims 2) 1 1 0) 1 1 0,
       convExtent (convExtent (dimAt (m.s1 0 x₀.vt).dims 3) 1 1 0) 1 1 0,
       convExtent (convExtent (dimAt (m.s1 0 x₀.vt).dims 4) 1 1 0) 1 1 0] := by
  refine catTList_map_dims ops _ m.labels _ _ _ _ ?_ hne
  intro l
  cases fb <;>
    (simp only [UNetFix.forwardBranch, UNetFixM.conv1x1Apply, NormM.apply, ActM.apply,
       sigmoidT, liftL, Conv3dM.apply, Conv3dM.dimsOut, unetConcat, unetUpsample,
       catT, catVT, stageApp, getDetachVar, Tensor.detach]
     simp [dimAt_set_one, List.getD, Tensor.detach]
     try simp [dimAt])

/-- Dense-output shape of ResUNetStrong.forward on a single-pathway input. -/
theorem resUNetStrong_forward_dense_dims [Inhabited τ] (ops : TorchOps τ)
    (m : UNetFixM τ) (gs : PSpGlobals) (x₀ : Tensor τ) (fb : Bool)
    (hne : m.labels ≠ []) :
    (ResUNetStrong.forward ops m gs [x₀] fb).1.vt.dims =
      [dimAt (m.s1 0 x₀.vt).dims 0, m.labels.length,
       convExtent (convExtent (dimAt (m.s1 0 x₀.vt).dims 2) 1 1 0) 1 1 0,
       convExtent (convExtent (dimAt (m.s1 0 x₀.vt).dims 3) 1 1 0) 1 1 0,
       convExtent (convExtent (dimAt (m.s1 0 x₀.vt).dims 4) 1 1 0) 1 1 0] := by
  refine catTList_map_dims ops _ m.labels _ _ _ _ ?_ hne
  intro l
  cases fb <;>
    (simp only [UNetFix.forwardBranch, UNetFixM.conv1x1Apply, NormM.apply, ActM.apply,
       sigmoidT, liftL, Conv3dM.apply, Conv3dM.dimsOut, unetConcat, unetUpsample,
       catT, catVT, stageApp, getDetachVar, Tensor.detach]
     simp [dimAt_set_one, List.getD, Tensor.detach]
     try simp [dimAt])

/-- C2 (amended): for every ResUNet-family model on a single-pathway input,
the dense output returned as the first component has channel count (axis 1)
equal to the number of declared labels.  The second returned component has
second axis equal to the label count for ResUNetCommon, ResUNetCommon2 and
ResUNetStrong (which view to (batch, labels, -1)); for ResUNet, ResUNetLight,
ResUNetLightFix and ResUNetContinus (which view to (batch, -1)) its second
axis equals the label count times the temporal extent of the dense output. -/
theorem claim_C2_head_shapes (τ : Type) [Inhabited τ] (ops : TorchOps τ)
    (gs : PSpGlobals) :
    (∀ (m : ResUNetM τ) (x₀ : Tensor τ) (bb : Option (VT τ)), m.labels ≠ [] →
      0 < dimAt (m.s1 0 x₀.vt).dims 0 →
      dimAt (ResUNet.forward ops m gs [x₀] bb).1.vt.dims 1 = m.labels.length ∧
      dimAt (ResUNet.forward ops m gs [x₀] bb).2.vt.dims 1 =
        m.labels.length * dimAt (ResUNet.forward ops m gs [x₀] bb).1.vt.dims 2) ∧
    (∀ (m : ResUNetM τ) (x₀ : Tensor τ) (fb : Bool), m.labels ≠ [] →
      0 < dimAt (m.s1 0 x₀.vt).dims 0 →
      dimAt (ResUNetLight.forward ops m gs [x₀] fb).1.vt.dims 1 = m.labels.length ∧
      dimAt (ResUNetLight.forward ops m gs [x₀] fb).2.vt.dims 1 =
        m.labels.length * dimAt (ResUNetLight.forward ops m gs [x₀] fb).1.vt.dims 2) ∧
    (∀ (m : UNetFixM τ) (x₀ : Tensor τ) (fb : Bool), m.labels ≠ [] →
      0 < dimAt (m.s1 0 x₀.vt).dims 0 →
      dimAt (ResUNetLightFix.forward ops m gs [x₀] fb).1.vt.dims 1 = m.labels.length ∧
      dimAt (ResUNetLightFix.forward ops m gs [x₀] fb).2.vt.dims 1 =
        m.labels.length * dimAt (ResUNetLightFix.forward ops m gs [x₀] fb).1.vt.dims 2) ∧
    (∀ (m : UNetFixM τ) (x₀ : Tensor τ) (fb : Bool), m.labels ≠ [] →
      0 < dimAt (m.s1 0 x₀.vt).dims 0 →
      dimAt (ResUNetContinus.forward ops m gs [x₀] fb).1.vt.dims 1 = m.labels.length ∧
      dimAt (ResUNetContinus.forward ops m gs [x₀] fb).2.vt.dims 1 =
        m.labels.length * dimAt (ResUNetContinus.forward ops m gs [x₀] fb).1.vt.dims 2) ∧
    (∀ (m : UNetFixM τ) (x₀ : Tensor τ) (fb : Bool), m.labels ≠ [] →
      dimAt (ResUNetCommon.forward ops m gs [x₀] fb).1.vt.dims 1 = m.labels.length ∧
      dimAt (ResUNetCommon.forward ops m gs [x₀] fb).2.vt.dims 1 = m.labels.length) ∧
    (∀ (m : UNetFixM τ) (x₀ : Tensor τ) (fb : Bool), m.labels ≠ [] →
      dimAt (ResUNetCommon2.forward ops m gs [x₀] fb).1.vt.dims 1 = m.labels.length ∧
      dimAt (ResUNetCommon2.forward ops m gs [x₀] fb).2.vt.dims 1 = m.labels.length) ∧
    (∀ (m : UNetFixM τ) (x₀ : Tensor τ) (fb : Bool), m.labels ≠ [] →
      dimAt (ResUNetStrong.forward ops m gs [x₀] fb).1.vt.dims 1 = m.labels.length ∧
      dimAt (ResUNetStrong.forward ops m gs [x₀] fb).2.vt.dims 1 = m.labels.length) := by
  refine ⟨?_, ?_, ?_, ?_, ?_, ?_, ?_⟩
  · intro m x₀ bb hne hb
    have hd := resUNet_forward_dense_dims ops m gs x₀ bb hne
    constructor
    · rw [hd]; rfl
    · have hout : (ResUNet.forward ops m gs [x₀] bb).2.vt.dims =
          [dimAt (m.s1 0 x₀.vt).dims 0,
           m.labels.length * convExtent (dimAt (m.s1 0 x₀.vt).dims 2) 1 1 0] := by
        exact unet_out_dims ops _ _ _ _ _ _ _ hd rfl hb
      rw [hout, hd]; rfl
  · intro m x₀ fb hne hb
    have hd := resUNetLight_forward_dense_dims ops m gs x₀ fb hne
    constructor
    · rw [hd]; rfl
    · have hout : (ResUNetLight.forward ops m gs [x₀] fb).2.vt.dims =
          [dimAt (m.s1 0 x₀.vt).dims 0,
           m.labels.length * convExtent (dimAt (m.s1 0 x₀.vt).dims 2) 1 1 0] := by
        exact unet_out_dims ops _ _ _ _ _ _ _ hd rfl hb
      rw [hout, hd]; rfl
  · intro m x₀ fb hne hb
    have hd := resUNetLightFix_forward_dense_dims ops m gs x₀ fb hne
    constructor
    · rw [hd]; rfl
    · have hout : (ResUNetLightFix.forward ops m gs [x₀] fb).2.vt.dims =
          [dimAt (m.s1 0 x₀.vt).dims 0,
           m.labels.length *
             convExtent (convExtent (dimAt (m.s1 0 x₀.vt).dims 2) 1 1 0) 1 1 0] := by
        exact unetfix_out_dims ops _ _ _ _ _ _ _ hd rfl hb
      rw [hout, hd]; rfl
  · intro m x₀ fb hne hb
    have hd := resUNetContinus_forward_dense_dims ops m gs x₀ fb hne
    constructor
    · rw [hd]; rfl
    · have hout : (ResUNetContinus.forward ops m gs [x₀] fb).2.vt.dims =
          [dimAt (m.s1 0 x₀.vt).dims 0,
           m.labels.length *
             convExtent (convExtent (dimAt (m.s1 0 x₀.vt).dims 2) 1 1 0) 1 1 0] := by
        exact unetfix_out_dims ops _ _ _ _ _ _ _ hd rfl hb
      rw [hout, hd]; rfl
  · intro m x₀ fb hne
    have hd := resUNetCommon_forward_dense_dims ops m gs x₀ fb hne
    exact ⟨by rw [hd]; rfl, rfl⟩
  · intro m x₀ fb hne
    have hd := resUNetCommon2_forward_dense_dims ops m gs x₀ fb hne
    exact ⟨by rw [hd]; rfl, rfl⟩
  · intro m x₀ fb hne
    have hd := resUNetStrong_forward_dense_dims ops m gs x₀ fb hne
    exact ⟨by rw [hd]; rfl, rfl⟩

/-- C2 counterexample: a concrete ResUNet with the two declared labels and
stem-comment shapes (8 frames) returns a second component whose second axis
is 16 (labels times frames), not the label count 2. -/
theorem claim_C2_head_shapes_counterexample :
    mRUU.labels.length = 2 ∧
    dimAt (ResUNet.forward opsU mRUU pspU [tU] none).2.vt.dims 1 = 16 ∧
    dimAt (ResUNet.forward opsU mRUU pspU [tU] none).2.vt.dims 1 ≠
      mRUU.labels.length := by
  refine ⟨rfl, ?_, ?_⟩ <;> decide

/-- C2 witness at a concrete ResUNet and ResUNetCommon. -/
theorem claim_C2_head_shapes_witness :
    (dimAt (ResUNet.forward opsU mRUU pspU [tU] none).1.vt.dims 1 =
      mRUU.labels.length ∧
    dimAt (ResUNet.forward opsU mRUU pspU [tU] none).2.vt.dims 1 =
      mRUU.labels.length *
        dimAt (ResUNet.forward opsU mRUU pspU [tU] none).1.vt.dims 2) ∧
    (dimAt (ResUNetCommon.forward opsU mFixU pspU [tU] false).1.vt.dims 1 =
      mFixU.labels.length ∧
    dimAt (ResUNetCommon.forward opsU mFixU pspU [tU] false).2.vt.dims 1 =
      mFixU.labels.length) :=
  ⟨(claim_C2_head_shapes Unit opsU pspU).1 mRUU tU none (by decide) (by decide),
   (claim_C2_head_shapes Unit opsU pspU).2.2.2.2.1 mFixU tU false (by decide)⟩

theorem strDataInj (a b : String) (h : a.data = b.data) : a = b := by
  cases a
  cases b
  exact congrArg String.mk (by simpa using h)

theorem nameLabelInj (name a b : String) (h : name ++ "_" ++ a = name ++ "_" ++ b) :
    a = b := by
  have hd := congrArg String.data h
  simp only [String.data_append] at hd
  exact strDataInj a b (List.append_cancel_left hd)

theorem keyNe_t3_t4 (a b : String) : ("t3" ++ "_" ++ a : String) ≠ "t4" ++ "_" ++ b := by
  intro h
  have hd := congrArg String.data h
  simp [String.data_append, show ("t3" : String).data = ['t', '3'] from by decide,
    show ("t4" : String).data = ['t', '4'] from by decide,
    show ("_" : String).data = ['_'] from by decide] at hd

theorem keyNe_t4_t3 (a b : String) : ("t4" ++ "_" ++ a : String) ≠ "t3" ++ "_" ++ b := by
  intro h
  have hd := congrArg String.data h
  simp [String.data_append, show ("t3" : String).data = ['t', '3'] from by decide,
    show ("t4" : String).data = ['t', '4'] from by decide,
    show ("_" : String).data = ['_'] from by decide] at hd

theorem keyNe_conv_t4 (a b : String) :
    ("conv1x1" ++ "_" ++ a : String) ≠ "t4" ++ "_" ++ b := by
  intro h
  have hd := congrArg String.data h
  simp [String.data_append,
    show ("conv1x1" : String).data = ['c', 'o', 'n', 'v', '1', 'x', '1'] from by decide,
    show ("t4" : String).data = ['t', '4'] from by decide,
    show ("_" : String).data = ['_'] from by decide] at hd

theorem keyNe_conv_t3 (a b : String) :
    ("conv1x1" ++ "_" ++ a : String) ≠ "t3" ++ "_" ++ b := by
  intro h
  have hd := congrArg String.data h
  simp [String.data_append,
    show ("conv1x1" : String).data = ['c', 'o', 'n', 'v', '1', 'x', '1'] from by decide,
    show ("t3" : String).data = ['t', '3'] from by decide,
    show ("_" : String).data = ['_'] from by decide] at hd

theorem keyNe_t4_conv (a b : String) :
    ("t4" ++ "_" ++ a : String) ≠ "conv1x1" ++ "_" ++ b := by
  intro h
  exact keyNe_conv_t4 b a h.symm

theorem keyNe_t3_conv (a b : String) :
    ("t3" ++ "_" ++ a : String) ≠ "conv1x1" ++ "_" ++ b := by
  intro h
  exact keyNe_conv_t3 b a h.symm

theorem dualDefine_spec (name : String) :
    ∀ (ls : List String) (st : ModuleReg),
      (dualDefine name ls st).entries = st.entries ++ dualDefineAux name ls st.nextId ∧
      (dualDefine name ls st).nextId = st.nextId + ls.length := by
  intro ls
  induction ls with
  | nil => intro st; simp [dualDefine, dualDefineAux]
  | cons a as ih =>
    intro st
    have h := ih ⟨st.entries ++ [(name ++ "_" ++ a, st.nextId)], st.nextId + 1⟩
    constructor
    · show (dualDefine name as _).entries = _
      rw [h.1]
      simp [dualDefineAux]
    · show (dualDefine name as _).nextId = _
      rw [h.2]
      show st.nextId + 1 + as.length = st.nextId + (a :: as).length
      simp only [List.length_cons]
      omega

theorem lookupLast_append_none (n : String) (bs : List (String × Nat))
    (hbs : lookupLast n bs = none) :
    ∀ as : List (String × Nat), lookupLast n (as ++ bs) = lookupLast n as := by
  intro as
  induction as with
  | nil => simpa using hbs
  | cons e es ih => simp only [List.cons_append, lookupLast, List.append_eq, ih]

theorem lookupLast_append_some (n : String) (bs : List (String × Nat)) (v : Nat)
    (hbs : lookupLast n bs = some v) :
    ∀ as : List (String × Nat), lookupLast n (as ++ bs) = some v := by
  intro as
  induction as with
  | nil => simpa using hbs
  | cons e es ih => simp only [List.cons_append, lookupLast, List.append_eq, ih]

theorem lookupLast_eq_none (n : String) :
    ∀ es : List (String × Nat), (∀ e ∈ es, e.1 ≠ n) → lookupLast n es = none := by
  intro es
  induction es with
  | nil => intro _; rfl
  | cons e es ih =>
    intro h
    simp only [lookupLast, ih (fun e' he' => h e' (List.mem_cons_of_mem _ he'))]
    simp [h e (List.mem_cons_self _ _)]

theorem dualDefineAux_key (name : String) :
    ∀ (ls : List String) (k : Nat) (e : String × Nat),
      e ∈ dualDefineAux name ls k → ∃ l, l ∈ ls ∧ e.1 = name ++ "_" ++ l := by
  intro ls
  induction ls with
  | nil => intro k e he; cases he
  | cons a as ih =>
    intro k e he
    rcases List.mem_cons.mp he with he | he
    · exact ⟨a, List.mem_cons_self _ _, by rw [he]⟩
    · obtain ⟨l, hl, hel⟩ := ih (k + 1) e he
      exact ⟨l, List.mem_cons_of_mem _ hl, hel⟩

theorem lookupLast_dualDefineAux_none (name2 name l : String)
    (hkey : ∀ a : String, name2 ++ "_" ++ a ≠ name ++ "_" ++ l)
    (ls : List String) (k : Nat) :
    lookupLast (name ++ "_" ++ l) (dualDefineAux name2 ls k) = none := by
  apply lookupLast_eq_none
  intro e he
  obtain ⟨a, _, hea⟩ := dualDefineAux_key name2 ls k e he
  rw [hea]
  exact hkey a

theorem lookupLast_dualDefineAux (name l : String) :
    ∀ (ls : List String) (k : Nat),
      lookupLast (name ++ "_" ++ l) (dualDefineAux name ls k) =
        Option.map (fun i => k + i) (lastIdxOf l ls) := by
  intro ls
  induction ls with
  | nil => intro k; rfl
  | cons a as ih =>
    intro k
    simp only [dualDefineAux, lookupLast, ih (k + 1), lastIdxOf]
    cases hL : lastIdxOf l as with
    | some i =>
      simp only [Option.map]
      show some (k + 1 + i) = some (k + (i + 1))
      congr 1
      omega
    | none =>
      by_cases he : a = l
      · subst he
        simp
      · have hk : name ++ "_" ++ a ≠ name ++ "_" ++ l :=
          fun hc => he (nameLabelInj name a l hc)
        simp [he, hk]

theorem lastIdxOf_getD (l : String) :
    ∀ (ls : List String) (i : Nat), lastIdxOf l ls = some i → ls.getD i "" = l := by
  intro ls
  induction ls with
  | nil => intro i h; cases h
  | cons a as ih =>
    intro i h
    simp only [lastIdxOf] at h
    cases hL : lastIdxOf l as with
    | some j =>
      rw [hL] at h
      cases h
      exact ih j hL
    | none =>
      rw [hL] at h
      by_cases he : a = l
      · rw [if_pos he] at h
        cases h
        exact he
      · rw [if_neg he] at h
        cases h

theorem lastIdxOf_isSome (l : String) :
    ∀ ls : List String, l ∈ ls → (lastIdxOf l ls).isSome = true := by
  intro ls
  induction ls with
  | nil => intro h; cases h
  | cons a as ih =>
    intro h
    simp only [lastIdxOf]
    cases hL : lastIdxOf l as with
    | some i => rfl
    | none =>
      rcases List.mem_cons.mp h with rfl | hmem
      · simp
      · have hs := ih hmem
        rw [hL] at hs
        simp at hs

theorem lookup_map_ne (labels : List String) (k : Nat) (l1 l2 : String)
    (h1 : l1 ∈ labels) (h2 : l2 ∈ labels) (hne : l1 ≠ l2) :
    (Option.map (fun i => k + i) (lastIdxOf l1 labels)).isSome = true ∧
    Option.map (fun i => k + i) (lastIdxOf l1 labels) ≠
      Option.map (fun i => k + i) (lastIdxOf l2 labels) := by
  obtain ⟨i1, hi1⟩ := Option.isSome_iff_exists.mp (lastIdxOf_isSome l1 labels h1)
  obtain ⟨i2, hi2⟩ := Option.isSome_iff_exists.mp (lastIdxOf_isSome l2 labels h2)
  rw [hi1, hi2]
  refine ⟨rfl, ?_⟩
  intro hc
  simp only [Option.map] at hc
  have hk : k + i1 = k + i2 := Option.some.inj hc
  have hii : i1 = i2 := by omega
  apply hne
  rw [← lastIdxOf_getD l1 labels i1 hi1, ← lastIdxOf_getD l2 labels i2 hi2, hii]

theorem dualModules_entries (labels : List String) :
    (dualModules labels).entries =
      dualDefineAux "t4" labels 0 ++ dualDefineAux "t3" labels labels.length ++
        dualDefineAux "conv1x1" labels (labels.length + labels.length) := by
  unfold dualModules
  have e1 := dualDefine_spec "t4" labels ⟨[], 0⟩
  have e2 := dualDefine_spec "t3" labels (dualDefine "t4" labels ⟨[], 0⟩)
  have e3 := dualDefine_spec "conv1x1" labels
    (dualDefine "t3" labels (dualDefine "t4" labels ⟨[], 0⟩))
  rw [e3.1, e2.1, e1.1, e2.2, e1.2]
  simp

/-- In the registry produced by the three dual_define calls, every declared
label owns its own registered copy under each of the names t4, t3 and
conv1x1, and distinct labels own distinct (unshared) parameter objects. -/
theorem dualModules_distinct (labels : List String) (name l1 l2 : String)
    (hname : name = "t4" ∨ name = "t3" ∨ name = "conv1x1")
    (h1 : l1 ∈ labels) (h2 : l2 ∈ labels) (hne : l1 ≠ l2) :
    (lookupLast (name ++ "_" ++ l1) (dualModules labels).entries).isSome = true ∧
    lookupLast (name ++ "_" ++ l1) (dualModules labels).entries ≠
      lookupLast (name ++ "_" ++ l2) (dualModules labels).entries := by
  have hE := dualModules_entries labels
  rcases hname with rfl | rfl | rfl
  · have hl : ∀ l', lookupLast ("t4" ++ "_" ++ l') (dualModules labels).entries =
        Option.map (fun i => 0 + i) (lastIdxOf l' labels) := by
      intro l'
      rw [hE,
        lookupLast_append_none _ _
          (lookupLast_dualDefineAux_none "conv1x1" "t4" l' (fun a => keyNe_conv_t4 a l')
            labels (labels.length + labels.length)) _,
        lookupLast_append_none _ _
          (lookupLast_dualDefineAux_none "t3" "t4" l' (fun a => keyNe_t3_t4 a l')
            labels labels.length) _,
        lookupLast_dualDefineAux]
    rw [hl l1, hl l2]
    exact lookup_map_ne labels 0 l1 l2 h1 h2 hne
  · have hl : ∀ l', l' ∈ labels →
        lookupLast ("t3" ++ "_" ++ l') (dualModules labels).entries =
          Option.map (fun i => labels.length + i) (lastIdxOf l' labels) := by
      intro l' hl'
      obtain ⟨i, hi⟩ := Option.isSome_iff_exists.mp (lastIdxOf_isSome l' labels hl')
      rw [hE,
        lookupLast_append_none _ _
          (lookupLast_dualDefineAux_none "conv1x1" "t3" l' (fun a => keyNe_conv_t3 a l')
            labels (labels.length + labels.length)) _,
        lookupLast_append_some _ _ (labels.length + i)
          (by rw [lookupLast_dualDefineAux, hi]; rfl) _,
        hi]
      rfl
    rw [hl l1 h1, hl l2 h2]
    exact lookup_map_ne labels labels.length l1 l2 h1 h2 hne
  · have hl : ∀ l', l' ∈ labels →
        lookupLast ("conv1x1" ++ "_" ++ l') (dualModules labels).entries =
          Option.map (fun i => labels.length + labels.length + i)
            (lastIdxOf l' labels) := by
      intro l' hl'
      obtain ⟨i, hi⟩ := Option.isSome_iff_exists.mp (lastIdxOf_isSome l' labels hl')
      rw [hE,
        lookupLast_append_some _ _ (labels.length + labels.length + i)
          (by rw [lookupLast_dualDefineAux, hi]; rfl) _,
        hi]
      rfl
    rw [hl l1 h1, hl l2 h2]
    exact lookup_map_ne labels (labels.length + labels.length) l1 l2 h1 h2 hne

theorem resUNet_construct_ok_inv (cfg : Cfg) (d : ResUNetDesc)
    (h : ResUNet.construct cfg = .ok d) :
    d.labels = ["rotate", "light"] ∧
    d.modules = (dualModules ["rotate", "light"]).entries := by
  unfold ResUNet.construct at h
  split at h
  · split at h
    · simp at h
    · split at h
      · split at h
        · simp at h
        · rw [Except.ok.injEq] at h
          subst h
          exact ⟨rfl, rfl⟩
      · simp at h
  · simp at h

theorem resUNetLight_construct_ok_inv (cfg : Cfg) (d : ResUNetDesc)
    (h : ResUNetLight.construct cfg = .ok d) :
    d.labels = ["rotate", "light"] ∧
    d.modules = (dualModules ["rotate", "light"]).entries := by
  unfold ResUNetLight.construct at h
  split at h
  · split at h
    · simp at h
    · split at h
      · split at h
        · simp at h
        · rw [Except.ok.injEq] at h
          subst h
          exact ⟨rfl, rfl⟩
      · simp at h
  · simp at h

theorem resUNetLightFix_construct_ok_inv (cfg : Cfg) (d : ResUNetDesc)
    (h : ResUNetLightFix.construct cfg = .ok d) :
    d.labels = ["rotate", "light", "skip"] ∧
    d.modules = (dualModules ["rotate", "light", "skip"]).entries := by
  unfold ResUNetLightFix.construct at h
  split at h
  · split at h
    · simp at h
    · split at h
      · split at h
        · simp at h
        · rw [Except.ok.injEq] at h
          subst h
          exact ⟨rfl, rfl⟩
      · simp at h
  · simp at h

theorem resUNetContinus_construct_ok_inv (cfg : Cfg) (d : ResUNetDesc)
    (h : ResUNetContinus.construct cfg = .ok d) :
    d.labels = ["all"] ∧ d.modules = (dualModules ["all"]).entries := by
  unfold ResUNetContinus.construct at h
  split at h
  · split at h
    · simp at h
    · split at h
      · split at h
        · simp at h
        · rw [Except.ok.injEq] at h
          subst h
          exact ⟨rfl, rfl⟩
      · simp at h
  · simp at h

theorem resUNetCommon_construct_ok_inv (cfg : Cfg) (d : ResUNetDesc)
    (h : ResUNetCommon.construct cfg = .ok d) :
    d.labels = cfg.labels ∧ d.modules = (dualModules cfg.labels).entries := by
  unfold ResUNetCommon.construct at h
  split at h
  · split at h
    · simp at h
    · split at h
      · split at h
        · simp at h
        · rw [Except.ok.injEq] at h
          subst h
          exact ⟨rfl, rfl⟩
      · simp at h
  · simp at h

theorem resUNetCommon2_construct_ok_inv (cfg : Cfg) (d : ResUNetDesc)
    (h : ResUNetCommon2.construct cfg = .ok d) :
    d.labels = cfg.labels ∧ d.modules = (dualModules cfg.labels).entries := by
  unfold ResUNetCommon2.construct at h
  split at h
  · split at h
    · simp at h
    · split at h
      · split at h
        · simp at h
        · rw [Except.ok.injEq] at h
          subst h
          exact ⟨rfl, rfl⟩
      · simp at h
  · simp at h

theorem resUNetStrong_construct_ok_inv (cfg : Cfg) (d : ResUNetDesc)
    (h : ResUNetStrong.construct cfg = .ok d) :
    d.labels = cfg.labels ∧ d.modules = (dualModules cfg.labels).entries := by
  unfold ResUNetStrong.construct at h
  split at h
  · split at h
    · simp at h
    · split at h
      · split at h
        · simp at h
        · rw [Except.ok.injEq] at h
          subst h
          exact ⟨rfl, rfl⟩
      · simp at h
  · simp at h

/-- C7: for every multi-branch (ResUNet-family) model, for each decoder
sub-module name t4, t3 and conv1x1, construction registers one deep-copied
instance per declared label, and distinct labels resolve to distinct
(non-shared) parameter objects in the module registry. -/
theorem claim_C7_per_label_copies :
    (∀ (cfg : Cfg) (d : ResUNetDesc), ResUNet.construct cfg = .ok d →
      ∀ name l1 l2, (name = "t4" ∨ name = "t3" ∨ name = "conv1x1") →
        l1 ∈ d.labels → l2 ∈ d.labels → l1 ≠ l2 →
        (lookupLast (name ++ "_" ++ l1) d.modules).isSome = true ∧
        lookupLast (name ++ "_" ++ l1) d.modules ≠
          lookupLast (name ++ "_" ++ l2) d.modules) ∧
    (∀ (cfg : Cfg) (d : ResUNetDesc), ResUNetLight.construct cfg = .ok d →
      ∀ name l1 l2, (name = "t4" ∨ name = "t3" ∨ name = "conv1x1") →
        l1 ∈ d.labels → l2 ∈ d.labels → l1 ≠ l2 →
        (lookupLast (name ++ "_" ++ l1) d.modules).isSome = true ∧
        lookupLast (name ++ "_" ++ l1) d.modules ≠
          lookupLast (name ++ "_" ++ l2) d.modules) ∧
    (∀ (cfg : Cfg) (d : ResUNetDesc), ResUNetLightFix.construct cfg = .ok d →
      ∀ name l1 l2, (name = "t4" ∨ name = "t3" ∨ name = "conv1x1") →
        l1 ∈ d.labels → l2 ∈ d.labels → l1 ≠ l2 →
        (lookupLast (name ++ "_" ++ l1) d.modules).isSome = true ∧
        lookupLast (name ++ "_" ++ l1) d.modules ≠
          lookupLast (name ++ "_" ++ l2) d.modules) ∧
    (∀ (cfg : Cfg) (d : ResUNetDesc), ResUNetContinus.construct cfg = .ok d →
      ∀ name l1 l2, (name = "t4" ∨ name = "t3" ∨ name = "conv1x1") →
        l1 ∈ d.labels → l2 ∈ d.labels → l1 ≠ l2 →
        (lookupLast (name ++ "_" ++ l1) d.modules).isSome = true ∧
        lookupLast (name ++ "_" ++ l1) d.modules ≠
          lookupLast (name ++ "_" ++ l2) d.modules) ∧
    (∀ (cfg : Cfg) (d : ResUNetDesc), ResUNetCommon.construct cfg = .ok d →
      ∀ name l1 l2, (name = "t4" ∨ name = "t3" ∨ name = "conv1x1") →
        l1 ∈ d.labels → l2 ∈ d.labels → l1 ≠ l2 →
        (lookupLast (name ++ "_" ++ l1) d.modules).isSome = true ∧
        lookupLast (name ++ "_" ++ l1) d.modules ≠
          lookupLast (name ++ "_" ++ l2) d.modules) ∧
    (∀ (cfg : Cfg) (d : ResUNetDesc), ResUNetCommon2.construct cfg = .ok d →
      ∀ name l1 l2, (name = "t4" ∨ name = "t3" ∨ name = "conv1x1") →
        l1 ∈ d.labels → l2 ∈ d.labels → l1 ≠ l2 →
        (lookupLast (name ++ "_" ++ l1) d.modules).isSome = true ∧
        lookupLast (name ++ "_" ++ l1) d.modules ≠
          lookupLast (name ++ "_" ++ l2) d.modules) ∧
    (∀ (cfg : Cfg) (d : ResUNetDesc), ResUNetStrong.construct cfg = .ok d →
      ∀ name l1 l2, (name = "t4" ∨ name = "t3" ∨ name = "conv1x1") →
        l1 ∈ d.labels → l2 ∈ d.labels → l1 ≠ l2 →
        (lookupLast (name ++ "_" ++ l1) d.modules).isSome = true ∧
        lookupLast (name ++ "_" ++ l1) d.modules ≠
          lookupLast (name ++ "_" ++ l2) d.modules) := by
  refine ⟨?_, ?_, ?_, ?_, ?_, ?_, ?_⟩ <;> intro cfg d h name l1 l2 hname h1 h2 hne
  · obtain ⟨hL, hM⟩ := resUNet_construct_ok_inv cfg d h
    rw [hL] at h1 h2
    rw [hM]
    exact dualModules_distinct _ name l1 l2 hname h1 h2 hne
  · obtain ⟨hL, hM⟩ := resUNetLight_construct_ok_inv cfg d h
    rw [hL] at h1 h2
    rw [hM]
    exact dualModules_distinct _ name l1 l2 hname h1 h2 hne
  · obtain ⟨hL, hM⟩ := resUNetLightFix_construct_ok_inv cfg d h
    rw [hL] at h1 h2
    rw [hM]
    exact dualModules_distinct _ name l1 l2 hname h1 h2 hne
  · obtain ⟨hL, hM⟩ := resUNetContinus_construct_ok_inv cfg d h
    rw [hL] at h1 h2
    rw [hM]
    exact dualModules_distinct _ name l1 l2 hname h1 h2 hne
  · obtain ⟨hL, hM⟩ := resUNetCommon_construct_ok_inv cfg d h
    rw [hL] at h1 h2
    rw [hM]
    exact dualModules_distinct _ name l1 l2 hname h1 h2 hne
  · obtain ⟨hL, hM⟩ := resUNetCommon2_construct_ok_inv cfg d h
    rw [hL] at h1 h2
    rw [hM]
    exact dualModules_distinct _ name l1 l2 hname h1 h2 hne
  · obtain ⟨hL, hM⟩ := resUNetStrong_construct_ok_inv cfg d h
    rw [hL] at h1 h2
    rw [hM]
    exact dualModules_distinct _ name l1 l2 hname h1 h2 hne

/-- C7 witness: in a constructed ResUNet the t4 copies for the labels rotate
and light are present and distinct. -/
theorem claim_C7_per_label_copies_witness :
    (lookupLast ("t4" ++ "_" ++ "rotate")
        (dualModules ["rotate", "light"]).entries).isSome = true ∧
    lookupLast ("t4" ++ "_" ++ "rotate") (dualModules ["rotate", "light"]).entries ≠
      lookupLast ("t4" ++ "_" ++ "light") (dualModules ["rotate", "light"]).entries :=
  claim_C7_per_label_copies.1 cfgBase
    { poolSize := [[1, 1, 1]], stageDepths := (3, 4, 6, 3),
      labels := ["rotate", "light"],
      modules := (dualModules ["rotate", "light"]).entries,
      conv1x1InC := cfgBase.widthPerGroup * 4 + cfgBase.widthPerGroup }
    rfl "t4" "rotate" "light" (Or.inl rfl) (by decide) (by decide) (by decide)
